import Mathlib

/-!
Shallow embedding of the heatmap-of-fascism-bot ingestion, resolution and
deduplication pipeline, together with theorems settling the frozen claims.

Conventions used throughout:
* Python floats are modelled as rationals (`ℚ`); the transcendental library
  functions (`math.sin`, `math.cos`, `math.asin`, `math.sqrt`) and `math.pi`
  are abstracted into a `Trig` parameter, since the claims under scrutiny do
  not depend on their analytic values.  `Trig.Sane` captures the three facts
  about them the proofs use (`sin 0 = 0`, `sqrt 0 = 0`, `asin 0 = 0`).
* Python dictionaries holding report/feature properties are modelled as
  structures with `Option` fields (`none` = key absent / `None`).
* Network calls (Nominatim, Overpass) are modelled as oracle arguments: the
  response a call would have produced is passed in as data.  A tier "is not
  attempted" exactly when the result is independent of that oracle.
-/

/-- Abstraction of the `math` library functions used by the source
(`bot.py` / `hm/domain/dedup.py` / `hm/domain/location.py`). -/
structure Trig where
  sin : ℚ → ℚ
  cos : ℚ → ℚ
  asin : ℚ → ℚ
  sqrt : ℚ → ℚ
  pi : ℚ

/-- The facts about the trig oracle that the claims rely on; all hold of the
real `math.sin`, `math.sqrt`, `math.asin`. -/
def Trig.Sane (T : Trig) : Prop :=
  T.sin 0 = 0 ∧ T.sqrt 0 = 0 ∧ T.asin 0 = 0

/-- A concrete `Trig` instance satisfying `Trig.Sane`, used to evaluate the
embedding on concrete inputs (witnesses and counterexamples). -/
def saneTrig : Trig :=
  { sin := id, cos := fun _ => 1, asin := id, sqrt := id,
    pi := 3141592653589793 / 1000000000000000 }

theorem saneTrig_sane : saneTrig.Sane := by
  refine ⟨rfl, rfl, rfl⟩

/-- Embedding of `math.radians(x) = x * pi / 180`. -/
def pyRadians (T : Trig) (x : ℚ) : ℚ := x * T.pi / 180

/-- Embedding of `haversine_m` (src/hm/domain/dedup.py lines 4-10, identical
copy in src/bot.py lines 448-457). -/
def haversine_m (T : Trig) (lat1 lon1 lat2 lon2 : ℚ) : ℚ :=
  let R : ℚ := 6371000
  let p1 := pyRadians T lat1
  let p2 := pyRadians T lat2
  let dphi := pyRadians T (lat2 - lat1)
  let dl := pyRadians T (lon2 - lon1)
  let a := (T.sin (dphi / 2)) ^ 2 + T.cos p1 * T.cos p2 * (T.sin (dl / 2)) ^ 2
  2 * R * T.asin (T.sqrt a)

theorem haversine_m_self (T : Trig) (hT : T.Sane) (lat lon : ℚ) :
    haversine_m T lat lon lat lon = 0 := by
  obtain ⟨hs, hq, ha⟩ := hT
  simp [haversine_m, pyRadians, hs, hq, ha]

/-- GeoJSON feature `properties` dictionary, restricted to the keys read and
written by the dedup engine, the publish step and the staleness sweep.
`none` models an absent key / JSON `null`. -/
structure Props where
  status : Option String := none
  sticker_type : Option String := none
  radius_m : Option ℤ := none
  accuracy_m : Option ℤ := none
  seen_count : Option ℤ := none
  created_date : Option String := none
  last_seen : Option String := none
  removed_at : Option String := none
  media : Option (List String) := none
  item_id : Option String := none
deriving DecidableEq

/-- GeoJSON point feature: properties plus the raw `coordinates` list, kept
as a list because `attempt_dedup` skips features whose list is not of
length 2 (src/hm/domain/dedup.py line 32). -/
structure Feature where
  props : Props := {}
  coordinates : List ℚ := []
deriving DecidableEq

/-- The published-feature collection (`reports.geojson`). -/
structure Reports where
  features : List Feature := []
deriving DecidableEq

/-- Embedding of Python `int(x or d)` on an optional integer field: both a
missing key and a falsy value (0) fall back to the default. -/
def pyOrI (x : Option ℤ) (d : ℤ) : ℤ :=
  match x with
  | none => d
  | some v => if v = 0 then d else v

/-- Embedding of Python `(x or d)` on an optional string: a missing key and
an empty string both fall back to the default. -/
def pyOrS (x : Option String) (d : String) : String :=
  match x with
  | none => d
  | some s => if s = "" then d else s

/-- ASCII model of Python `str.lower()` on a single character. -/
def lowerChar (c : Char) : Char :=
  match c with
  | 'A' => 'a' | 'B' => 'b' | 'C' => 'c' | 'D' => 'd' | 'E' => 'e' | 'F' => 'f'
  | 'G' => 'g' | 'H' => 'h' | 'I' => 'i' | 'J' => 'j' | 'K' => 'k' | 'L' => 'l'
  | 'M' => 'm' | 'N' => 'n' | 'O' => 'o' | 'P' => 'p' | 'Q' => 'q' | 'R' => 'r'
  | 'S' => 's' | 'T' => 't' | 'U' => 'u' | 'V' => 'v' | 'W' => 'w' | 'X' => 'x'
  | 'Y' => 'y' | 'Z' => 'z' | c => c

/-- ASCII model of Python `str.lower()`. -/
def pyLower (s : String) : String := ⟨s.data.map lowerChar⟩

/-- Embedding of `(p.get("sticker_type") or "unknown").lower()`
(src/hm/domain/dedup.py lines 26 and 36). -/
def typeLower (x : Option String) : String := pyLower (pyOrS x "unknown")

/-- Embedding of the media-merge loop of `attempt_dedup`
(src/hm/domain/dedup.py lines 63-69): append candidate media entries that
are non-empty and not seen yet; the `seen` set tracks appended entries. -/
def mergeMediaGo (acc : List String) : List String → List String
  | [] => acc
  | u :: us =>
    if u ≠ "" ∧ u ∉ acc then mergeMediaGo (acc ++ [u]) us
    else mergeMediaGo acc us

/-- Media union entry point: `media = list(p.get("media") or [])` then the
append loop over `new_p.get("media") or []`. -/
def mergeMedia (old new : List String) : List String := mergeMediaGo old new

/-- Embedding of the in-place property update performed by `attempt_dedup`
when a match is found (src/hm/domain/dedup.py lines 46-69).  `newType` and
`exType` are the lowercased sticker types computed by the caller. -/
def mergeProps (newP : Props) (newType exType : String) (p : Props) : Props :=
  { p with
    last_seen := newP.created_date
    seen_count := some (p.seen_count.getD 1 + 1)
    status := if newP.status = some "present" then some "present" else some "removed"
    removed_at := if newP.status = some "present" then none else newP.removed_at
    sticker_type :=
      if exType = "unknown" ∧ newType ≠ "unknown" then some newType else p.sticker_type
    media := some (mergeMedia (p.media.getD []) (newP.media.getD [])) }

/-- The `for f in existing_reports.get("features", [])` loop of
`attempt_dedup` (src/hm/domain/dedup.py lines 29-71), written as a
recursion returning `some updatedFeatures` on the first match (the early
`return True, True`) and `none` when the loop falls through. -/
def dedupLoop (T : Trig) (newLat newLon : ℚ) (newR : ℤ) (newType : String)
    (newP : Props) : List Feature → Option (List Feature)
  | [] => none
  | f :: rest =>
    match f.coordinates with
    | [exLon, exLat] =>
      let p := f.props
      let exR := pyOrI p.radius_m 50
      let exType := typeLower p.sticker_type
      if ¬(newType = "unknown" ∨ exType = "unknown" ∨ newType = exType) then
        (dedupLoop T newLat newLon newR newType newP rest).map (f :: ·)
      else
        let dist := haversine_m T newLat newLon exLat exLon
        if dist ≤ ((max exR newR : ℤ) : ℚ) then
          some ({ f with props := mergeProps newP newType exType p } :: rest)
        else
          (dedupLoop T newLat newLon newR newType newP rest).map (f :: ·)
    | _ => (dedupLoop T newLat newLon newR newType newP rest).map (f :: ·)

/-- Embedding of `attempt_dedup` (src/hm/domain/dedup.py lines 12-73).
The source reads the candidate coordinates by direct indexing
(`coordinates[1]`, `coordinates[0]`); `getD` stands in for that access, and
all claims instantiate the candidate with a two-element coordinate list. -/
def attempt_dedup (T : Trig) (new_feat : Feature) (existing : Reports) :
    Bool × Reports :=
  let newP := new_feat.props
  let newLat := new_feat.coordinates.getD 1 0
  let newLon := new_feat.coordinates.getD 0 0
  let newR := pyOrI newP.radius_m 50
  let newType := typeLower newP.sticker_type
  match dedupLoop T newLat newLon newR newType newP existing.features with
  | some fs => (true, ⟨fs⟩)
  | none => (false, existing)

/-- Embedding of the tail of `Pipeline._publish_item`
(src/hm/core/pipeline.py lines 337-342): attempt the dedup merge, and
append the feature as new when no merge happened. -/
def publish_dedup_or_append (T : Trig) (feat : Feature) (reports : Reports) :
    Reports :=
  let r := attempt_dedup T feat reports
  if r.1 then r.2 else ⟨r.2.features ++ [feat]⟩

/-! ### Claim C1, C2, C10 auxiliary lemmas -/

/-- Pairwise matching rule extracted from `attempt_dedup` run against a
single existing feature: a merge happens exactly when the haversine
distance is at most the larger radius and the lowercased categories are
compatible. -/
theorem dedup_single_iff (T : Trig) (cand ex : Feature) (lo la : ℚ)
    (hex : ex.coordinates = [lo, la]) :
    (attempt_dedup T cand ⟨[ex]⟩).1 = true ↔
      (haversine_m T (cand.coordinates.getD 1 0) (cand.coordinates.getD 0 0) la lo
          ≤ ((max (pyOrI ex.props.radius_m 50) (pyOrI cand.props.radius_m 50) : ℤ) : ℚ)
        ∧ (typeLower cand.props.sticker_type = "unknown"
           ∨ typeLower ex.props.sticker_type = "unknown"
           ∨ typeLower cand.props.sticker_type = typeLower ex.props.sticker_type)) := by
  simp only [attempt_dedup, dedupLoop, hex]
  by_cases hC : (typeLower cand.props.sticker_type = "unknown"
      ∨ typeLower ex.props.sticker_type = "unknown"
      ∨ typeLower cand.props.sticker_type = typeLower ex.props.sticker_type)
  · rw [if_neg (not_not_intro hC)]
    by_cases hD : haversine_m T (cand.coordinates.getD 1 0)
        (cand.coordinates.getD 0 0) la lo
        ≤ ((max (pyOrI ex.props.radius_m 50) (pyOrI cand.props.radius_m 50) : ℤ) : ℚ)
    · rw [if_pos hD]
      exact iff_of_true rfl ⟨hD, hC⟩
    · rw [if_neg hD]
      exact iff_of_false (fun h => Bool.false_ne_true h) (fun h => hD h.1)
  · rw [if_pos hC]
    exact iff_of_false (fun h => Bool.false_ne_true h) (fun h => hC h.2)

/-- Publishing into an empty collection always inserts. -/
theorem publish_into_empty (T : Trig) (c : Feature) :
    publish_dedup_or_append T c ⟨[]⟩ = ⟨[c]⟩ := rfl

/-- Scenario: two candidates at the same coordinates whose lowercased
categories agree merge into a single feature with `seen_count = 2`. -/
theorem dedup_scenario_same_category (T : Trig) (hT : T.Sane) (c1 c2 : Feature)
    (lo la : ℚ) (hc1 : c1.coordinates = [lo, la]) (hc2 : c2.coordinates = [lo, la])
    (heq : typeLower c1.props.sticker_type = typeLower c2.props.sticker_type)
    (hsc : c1.props.seen_count = none)
    (hr : 0 ≤ pyOrI c1.props.radius_m 50) :
    (publish_dedup_or_append T c2 (publish_dedup_or_append T c1 ⟨[]⟩)).features.map
      (fun f => f.props.seen_count) = [some 2] := by
  rw [publish_into_empty]
  have hle : haversine_m T (c2.coordinates.getD 1 0) (c2.coordinates.getD 0 0) la lo
      ≤ ((max (pyOrI c1.props.radius_m 50) (pyOrI c2.props.radius_m 50) : ℤ) : ℚ) := by
    rw [hc2]
    simp only [List.getD]
    rw [show ([lo, la].get? 1).getD 0 = la from rfl,
        show ([lo, la].get? 0).getD 0 = lo from rfl]
    rw [haversine_m_self T hT la lo]
    exact_mod_cast le_trans hr (le_max_left _ _)
  simp only [publish_dedup_or_append, attempt_dedup, dedupLoop, hc1]
  rw [if_neg (not_not_intro (Or.inr (Or.inr heq.symm)))]
  rw [if_pos hle]
  simp [mergeProps, hsc]

/-- Scenario: two candidates with distinct lowercased non-unknown categories
never merge: two features result, whatever the coordinates. -/
theorem dedup_scenario_diff_category (T : Trig) (c1 c2 : Feature)
    (h1 : typeLower c1.props.sticker_type ≠ "unknown")
    (h2 : typeLower c2.props.sticker_type ≠ "unknown")
    (hne : typeLower c2.props.sticker_type ≠ typeLower c1.props.sticker_type) :
    (publish_dedup_or_append T c2 (publish_dedup_or_append T c1 ⟨[]⟩)).features.length
      = 2 := by
  rw [publish_into_empty]
  simp only [publish_dedup_or_append, attempt_dedup, dedupLoop]
  rcases hc : c1.coordinates with _ | ⟨x, _ | ⟨y, _ | ⟨z, more⟩⟩⟩
  · rfl
  · rfl
  · dsimp only
    rw [if_pos (not_or.mpr ⟨h2, not_or.mpr ⟨h1, hne⟩⟩)]
    rfl
  · rfl

/-- Structure of a successful `attempt_dedup` loop pass: the first matching
feature is updated via `mergeProps`, everything else is untouched. -/
theorem dedupLoop_decomp (T : Trig) (a b : ℚ) (r : ℤ) (t : String) (newP : Props) :
    ∀ (fs out : List Feature), dedupLoop T a b r t newP fs = some out →
      ∃ pre f rest, fs = pre ++ f :: rest ∧
        out = pre ++
          { f with props := mergeProps newP t (typeLower f.props.sticker_type) f.props }
            :: rest
  | [], out => by
    intro h
    exact absurd h (by simp [dedupLoop])
  | f :: rest, out => by
    intro h
    simp only [dedupLoop] at h
    split at h
    · split_ifs at h with h1 h2
      · exact ⟨[], f, rest, rfl, by simpa using (Option.some_injective _ h).symm⟩
      · obtain ⟨out', h', rfl⟩ := Option.map_eq_some'.mp h
        obtain ⟨pre, g, rest', hfs, hout⟩ := dedupLoop_decomp T a b r t newP rest out' h'
        exact ⟨f :: pre, g, rest', by simp [hfs], by simp [hout]⟩
      · obtain ⟨out', h', rfl⟩ := Option.map_eq_some'.mp h
        obtain ⟨pre, g, rest', hfs, hout⟩ := dedupLoop_decomp T a b r t newP rest out' h'
        exact ⟨f :: pre, g, rest', by simp [hfs], by simp [hout]⟩
    · obtain ⟨out', h', rfl⟩ := Option.map_eq_some'.mp h
      obtain ⟨pre, g, rest', hfs, hout⟩ := dedupLoop_decomp T a b r t newP rest out' h'
      exact ⟨f :: pre, g, rest', by simp [hfs], by simp [hout]⟩

/-- A merge reported by `attempt_dedup` updates exactly one stored feature,
through `mergeProps`. -/
theorem attempt_dedup_merge_decomp (T : Trig) (cand : Feature)
    (reports out : Reports) (hm : attempt_dedup T cand reports = (true, out)) :
    ∃ pre f rest, reports.features = pre ++ f :: rest ∧
      out.features = pre ++
        { f with props := (mergeProps cand.props (typeLower cand.props.sticker_type)
            (typeLower f.props.sticker_type) f.props) } :: rest := by
  simp only [attempt_dedup] at hm
  rcases hd : dedupLoop T (cand.coordinates.getD 1 0) (cand.coordinates.getD 0 0)
      (pyOrI cand.props.radius_m 50) (typeLower cand.props.sticker_type)
      cand.props reports.features with _ | fs
  · rw [hd] at hm
    exact absurd (congrArg Prod.fst hm) (by simp)
  · rw [hd] at hm
    obtain ⟨pre, f, rest, hfs, hout⟩ :=
      dedupLoop_decomp T _ _ _ _ _ reports.features fs hd
    refine ⟨pre, f, rest, hfs, ?_⟩
    have : out = ⟨fs⟩ := by
      have := congrArg Prod.snd hm
      simpa using this.symm
    rw [this, hout]

/-! ### Concrete features used by witnesses and counterexamples -/

/-- Published feature, category `afd`, radius 50, at (lat 52, lon 13). -/
def fAfd : Feature :=
  { props := { status := some "present", sticker_type := some "afd",
               radius_m := some 50, created_date := some "2026-01-01",
               media := some [] },
    coordinates := [13, 52] }

/-- Second report of the same sticker, same category, later date. -/
def fAfd2 : Feature :=
  { props := { status := some "present", sticker_type := some "afd",
               radius_m := some 50, created_date := some "2026-01-05",
               media := some [] },
    coordinates := [13, 52] }

/-- Same location, category `npd`. -/
def fNpd : Feature :=
  { props := { status := some "present", sticker_type := some "npd",
               radius_m := some 50, created_date := some "2026-01-05",
               media := some [] },
    coordinates := [13, 52] }

/-- Candidate with category text `AfD` (mixed case). -/
def fAfDMixed : Feature :=
  { props := { status := some "present", sticker_type := some "AfD",
               radius_m := some 50, created_date := some "2026-01-02",
               media := some [] },
    coordinates := [13, 52] }

/-- Candidate with category text `AFD` (upper case). -/
def fAFDUpper : Feature :=
  { props := { status := some "present", sticker_type := some "AFD",
               radius_m := some 50, created_date := some "2026-01-03",
               media := some [] },
    coordinates := [13, 52] }

/-- C1 counterexample: the claim predicts that two candidates with different
non-"unknown" category texts at distance 0 never merge, but `attempt_dedup`
compares categories after lowercasing: `AfD` and `AFD` are different texts,
neither is "unknown", the coordinates coincide, and publishing both yields
one single feature with `seen_count = 2`. -/
theorem C1_counterexample :
    fAfDMixed.props.sticker_type = some "AfD"
    ∧ fAFDUpper.props.sticker_type = some "AFD"
    ∧ ("AfD" : String) ≠ "AFD"
    ∧ ("AfD" : String) ≠ "unknown" ∧ ("AFD" : String) ≠ "unknown"
    ∧ fAfDMixed.coordinates = fAFDUpper.coordinates
    ∧ (publish_dedup_or_append saneTrig fAFDUpper
        (publish_dedup_or_append saneTrig fAfDMixed ⟨[]⟩)).features.map
          (fun f => f.props.seen_count) = [some 2] := by
  refine ⟨rfl, rfl, by decide, by decide, by decide, rfl, ?_⟩
  have h1 : typeLower (some "AfD") = "afd" := by decide
  have h2 : typeLower (some "AFD") = "afd" := by decide
  have h3 : haversine_m saneTrig 52 13 52 13 = 0 :=
    haversine_m_self saneTrig saneTrig_sane 52 13
  norm_num [publish_dedup_or_append, attempt_dedup, dedupLoop, mergeProps,
    fAfDMixed, fAFDUpper, h1, h2, h3, mergeMedia, mergeMediaGo, pyOrI]

/-- C1 (amended): for a single existing published feature, `attempt_dedup`
merges the candidate into it if and only if the haversine distance is at
most the larger of the two radius values (with missing/zero radius read as
50) and the categories are compatible after lowercasing (equal, or either
equal to "unknown"); in particular two candidates whose lowercased
categories agree merge at distance 0 into one feature with seen_count 2,
and candidates with distinct lowercased non-"unknown" categories never
merge (two features result). -/
theorem C1_dedup_match_rule :
    (∀ (T : Trig) (cand ex : Feature) (lo la : ℚ), ex.coordinates = [lo, la] →
      ((attempt_dedup T cand ⟨[ex]⟩).1 = true ↔
        (haversine_m T (cand.coordinates.getD 1 0) (cand.coordinates.getD 0 0) la lo
            ≤ ((max (pyOrI ex.props.radius_m 50) (pyOrI cand.props.radius_m 50) : ℤ) : ℚ)
          ∧ (typeLower cand.props.sticker_type = "unknown"
             ∨ typeLower ex.props.sticker_type = "unknown"
             ∨ typeLower cand.props.sticker_type = typeLower ex.props.sticker_type))))
    ∧ (∀ (T : Trig), T.Sane → ∀ (c1 c2 : Feature) (lo la : ℚ),
        c1.coordinates = [lo, la] → c2.coordinates = [lo, la] →
        typeLower c1.props.sticker_type = typeLower c2.props.sticker_type →
        c1.props.seen_count = none → 0 ≤ pyOrI c1.props.radius_m 50 →
        (publish_dedup_or_append T c2
          (publish_dedup_or_append T c1 ⟨[]⟩)).features.map
            (fun f => f.props.seen_count) = [some 2])
    ∧ (∀ (T : Trig) (c1 c2 : Feature),
        typeLower c1.props.sticker_type ≠ "unknown" →
        typeLower c2.props.sticker_type ≠ "unknown" →
        typeLower c2.props.sticker_type ≠ typeLower c1.props.sticker_type →
        (publish_dedup_or_append T c2
          (publish_dedup_or_append T c1 ⟨[]⟩)).features.length = 2) :=
  ⟨dedup_single_iff, dedup_scenario_same_category, dedup_scenario_diff_category⟩

/-- Witness for C1: the amended rule instantiated at concrete features. -/
theorem C1_dedup_match_rule_witness :
    ((attempt_dedup saneTrig fAfd2 ⟨[fAfd]⟩).1 = true ↔
      (haversine_m saneTrig (fAfd2.coordinates.getD 1 0) (fAfd2.coordinates.getD 0 0) 52 13
          ≤ ((max (pyOrI fAfd.props.radius_m 50) (pyOrI fAfd2.props.radius_m 50) : ℤ) : ℚ)
        ∧ (typeLower fAfd2.props.sticker_type = "unknown"
           ∨ typeLower fAfd.props.sticker_type = "unknown"
           ∨ typeLower fAfd2.props.sticker_type = typeLower fAfd.props.sticker_type)))
    ∧ (publish_dedup_or_append saneTrig fAfd2
        (publish_dedup_or_append saneTrig fAfd ⟨[]⟩)).features.map
          (fun f => f.props.seen_count) = [some 2]
    ∧ (publish_dedup_or_append saneTrig fNpd
        (publish_dedup_or_append saneTrig fAfd ⟨[]⟩)).features.length = 2 :=
  ⟨C1_dedup_match_rule.1 saneTrig fAfd2 fAfd 13 52 rfl,
   C1_dedup_match_rule.2.1 saneTrig saneTrig_sane fAfd fAfd2 13 52 rfl rfl rfl rfl
     (by decide),
   C1_dedup_match_rule.2.2 saneTrig fAfd fNpd (by decide) (by decide) (by decide)⟩

/-- Existing feature for the C2 divergence: radius and accuracy 50. -/
def exC2 : Feature :=
  { props := { status := some "present", sticker_type := some "afd",
               radius_m := some 50, accuracy_m := some 50,
               created_date := some "2026-01-01", media := some [] },
    coordinates := [13, 52] }

/-- Candidate for the C2 divergence: tighter radius and accuracy 10. -/
def candC2 : Feature :=
  { props := { status := some "present", sticker_type := some "afd",
               radius_m := some 10, accuracy_m := some 10,
               created_date := some "2026-02-02", media := some [] },
    coordinates := [13, 52] }

/-- C2: evaluation at the failing input.  `attempt_dedup` merges the tighter
candidate (radius/accuracy 10) into the existing feature (radius/accuracy
50) but leaves `accuracy_m` and `radius_m` at 50 instead of tightening them
to the minimum 10 as the spec (and the bot.py merge the module documents
itself as porting) requires. -/
theorem C2_merge_skips_tightening :
    (attempt_dedup saneTrig candC2 ⟨[exC2]⟩).1 = true
    ∧ ((attempt_dedup saneTrig candC2 ⟨[exC2]⟩).2.features.map
        (fun f => (f.props.accuracy_m, f.props.radius_m)))
      = [(some 50, some 50)]
    ∧ min (50 : ℤ) 10 = 10 ∧ (50 : ℤ) ≠ 10 := by
  have h1 : typeLower (some "afd") = "afd" := by decide
  have h3 : haversine_m saneTrig 52 13 52 13 = 0 :=
    haversine_m_self saneTrig saneTrig_sane 52 13
  refine ⟨?_, ?_, by decide, by decide⟩ <;>
    norm_num [attempt_dedup, dedupLoop, mergeProps, exC2, candC2, h1, h3,
      mergeMedia, mergeMediaGo, pyOrI]

/-- C10: every merge performed by `attempt_dedup` rewrites the matched
feature's status: to "present" when the candidate's status is exactly the
string "present", and otherwise (including a missing status) to "removed"
with `removed_at` overwritten by the candidate's `removed_at`; no merge
branch leaves the stored status unchanged. -/
theorem C10_merge_status (T : Trig) (cand : Feature) (reports out : Reports)
    (hm : attempt_dedup T cand reports = (true, out)) :
    ∃ pre f rest f', reports.features = pre ++ f :: rest
      ∧ out.features = pre ++ f' :: rest
      ∧ f'.props.status =
          (if cand.props.status = some "present" then some "present" else some "removed")
      ∧ (cand.props.status ≠ some "present" →
          f'.props.removed_at = cand.props.removed_at) := by
  obtain ⟨pre, f, rest, hfs, hout⟩ := attempt_dedup_merge_decomp T cand reports out hm
  refine ⟨pre, f, rest, _, hfs, hout, ?_, ?_⟩
  · simp [mergeProps]
  · intro hne
    simp [mergeProps, hne]

/-- Candidate with a missing (`None`) status and a `removed_at` date. -/
def candC10 : Feature :=
  { props := { status := none, sticker_type := some "afd",
               radius_m := some 50, removed_at := some "2026-03-01",
               created_date := some "2026-03-01", media := some [] },
    coordinates := [13, 52] }

/-- Witness for C10: a candidate whose status key is absent merges into a
"present" feature and the result is marked "removed" with the candidate's
`removed_at`. -/
theorem C10_merge_status_witness :
    ∃ pre f rest f', (Reports.mk [fAfd]).features = pre ++ f :: rest
      ∧ (attempt_dedup saneTrig candC10 ⟨[fAfd]⟩).2.features = pre ++ f' :: rest
      ∧ f'.props.status =
          (if candC10.props.status = some "present" then some "present" else some "removed")
      ∧ (candC10.props.status ≠ some "present" →
          f'.props.removed_at = candC10.props.removed_at) :=
  C10_merge_status saneTrig candC10 ⟨[fAfd]⟩ _
    (Prod.ext
      (by
        have h1 : typeLower (some "afd") = "afd" := by decide
        have h3 : haversine_m saneTrig 52 13 52 13 = 0 :=
          haversine_m_self saneTrig saneTrig_sane 52 13
        norm_num [attempt_dedup, dedupLoop, fAfd, candC10, h1, h3, pyOrI])
      rfl)

/-! ### Staleness sweep (claim C8) -/

/-- Per-feature body of the `apply_stale_rule` loop (src/bot.py lines
2489-2517).  `strptime`-based calendar parsing is modelled by the oracle
`P : String → Option ℤ` mapping an ISO date string to its day ordinal
(`none` on parse failure, as for the empty string used when the key is
missing); `today` is the current day ordinal, so `today - d` is the
`(today - last_seen).days` of the source.  Returns the updated feature and
the contribution to the `changed` counter. -/
def staleFeature (P : String → Option ℤ) (today : ℤ) (f : Feature) : Feature × ℤ :=
  let p := f.props
  if p.status ≠ some "present" then (f, 0)
  else
    match P (p.last_seen.getD "") with
    | none => (f, 0)
    | some d =>
      if 30 ≤ today - d then
        ({ f with props := { p with status := some "unknown" } }, 1)
      else (f, 0)

/-- Embedding of `apply_stale_rule`: sweep all features, counting changes. -/
def apply_stale_rule (P : String → Option ℤ) (today : ℤ) (rs : Reports) :
    ℤ × Reports :=
  ((rs.features.map (fun f => (staleFeature P today f).2)).sum,
   ⟨rs.features.map (fun f => (staleFeature P today f).1)⟩)

/-- C8: the staleness sweep maps every feature through the per-feature rule;
a "present" feature whose last_seen parses to exactly 30 days before today
transitions to "unknown", one whose last_seen is 29 days before today is
left untouched, and a "removed" feature is never changed. -/
theorem C8_stale_rule (P : String → Option ℤ) (today : ℤ) (rs : Reports) :
    (apply_stale_rule P today rs).2.features
        = rs.features.map (fun f => (staleFeature P today f).1)
    ∧ (∀ f s d, f.props.status = some "present" → f.props.last_seen = some s →
        P s = some d → today - d = 30 →
        (staleFeature P today f).1.props.status = some "unknown")
    ∧ (∀ f s d, f.props.status = some "present" → f.props.last_seen = some s →
        P s = some d → today - d = 29 →
        (staleFeature P today f).1 = f)
    ∧ (∀ f, f.props.status = some "removed" → (staleFeature P today f).1 = f) := by
  refine ⟨rfl, ?_, ?_, ?_⟩
  · intro f s d hst hls hp hd
    simp [staleFeature, hst, hls, hp, hd]
  · intro f s d hst hls hp hd
    simp [staleFeature, hst, hls, hp, hd]
  · intro f hst
    simp [staleFeature, hst]

/-- Concrete date-parsing oracle for the C8 witness. -/
def dateOracleC8 : String → Option ℤ := fun s =>
  if s = "2026-09-12" then some 100
  else if s = "2026-09-13" then some 101
  else none

/-- Present feature last seen on the day whose ordinal is 100. -/
def fStale : Feature :=
  { props := { status := some "present", sticker_type := some "afd",
               last_seen := some "2026-09-12" },
    coordinates := [13, 52] }

/-- Present feature last seen one day later. -/
def fFresh : Feature :=
  { props := { status := some "present", sticker_type := some "afd",
               last_seen := some "2026-09-13" },
    coordinates := [13, 52] }

/-- Removed feature with an old last_seen. -/
def fRemoved : Feature :=
  { props := { status := some "removed", sticker_type := some "afd",
               last_seen := some "2026-09-12" },
    coordinates := [13, 52] }

/-- Witness for C8 at day ordinal 130: the 30-day-old present feature turns
"unknown", the 29-day-old one and the removed one stay as they are. -/
theorem C8_stale_rule_witness :
    (apply_stale_rule dateOracleC8 130 ⟨[fStale, fFresh, fRemoved]⟩).2.features
        = [fStale, fFresh, fRemoved].map
            (fun f => (staleFeature dateOracleC8 130 f).1)
    ∧ (staleFeature dateOracleC8 130 fStale).1.props.status = some "unknown"
    ∧ (staleFeature dateOracleC8 130 fFresh).1 = fFresh
    ∧ (staleFeature dateOracleC8 130 fRemoved).1 = fRemoved :=
  ⟨(C8_stale_rule dateOracleC8 130 ⟨[fStale, fFresh, fRemoved]⟩).1,
   (C8_stale_rule dateOracleC8 130 ⟨[fStale, fFresh, fRemoved]⟩).2.1 fStale
     "2026-09-12" 100 rfl rfl (by decide) (by decide),
   (C8_stale_rule dateOracleC8 130 ⟨[fStale, fFresh, fRemoved]⟩).2.2.1 fFresh
     "2026-09-13" 101 rfl rfl (by decide) (by decide),
   (C8_stale_rule dateOracleC8 130 ⟨[fStale, fFresh, fRemoved]⟩).2.2.2 fRemoved rfl⟩

/-! ### Geocode cache read-through (claim C9) -/

/-- A geocode cache entry (`cache_geocode.json` value): coordinates, the
resolution method and the write timestamp. -/
structure CacheEntry where
  lat : ℚ
  lon : ℚ
  method : Option String := none
  ts : ℤ := 0
deriving DecidableEq

/-- Embedding of the geocode step of `Pipeline._handle_status`
(src/hm/core/pipeline.py lines 131-148): a cache hit returns the stored
coordinates with `c.get("method", "cache")` and consults no oracle; a miss
calls the geocoder oracle `geo` (modelling `geocode_query_worldwide`) and
on success stores `lat`, `lon`, `method` and the timestamp under the query
string. -/
def pipeline_geocode_lookup (cache : String → Option CacheEntry)
    (geo : String → Option ((ℚ × ℚ) × String)) (ts : ℤ) (q : String) :
    Option (ℚ × ℚ × String) × (String → Option CacheEntry) :=
  match cache q with
  | some c => (some (c.lat, c.lon, c.method.getD "cache"), cache)
  | none =>
    match geo q with
    | some ((la, lo), m) =>
      (some (la, lo, m),
       fun q' => if q' = q then some ⟨la, lo, some m, ts⟩ else cache q')
    | none => (none, cache)

/-- C9: after a successful resolution of `q` (cache hit or freshly stored),
any later lookup of the same query returns the same coordinates and method
and leaves the cache untouched, for every geocoder oracle and timestamp —
i.e. the second resolution is read-through and performs no outbound call. -/
theorem C9_cache_roundtrip (cache : String → Option CacheEntry)
    (geo : String → Option ((ℚ × ℚ) × String)) (ts : ℤ) (q : String)
    (la lo : ℚ) (m : String) (cache' : String → Option CacheEntry)
    (h : pipeline_geocode_lookup cache geo ts q = (some (la, lo, m), cache')) :
    ∀ (g : String → Option ((ℚ × ℚ) × String)) (ts' : ℤ),
      pipeline_geocode_lookup cache' g ts' q = (some (la, lo, m), cache') := by
  intro g ts'
  simp only [pipeline_geocode_lookup] at h
  rcases hc : cache q with _ | c <;> rw [hc] at h
  · rcases hg : geo q with _ | ⟨⟨la0, lo0⟩, m0⟩ <;> rw [hg] at h
    · exact absurd (congrArg Prod.fst h) (by simp)
    · simp only [Prod.mk.injEq, Option.some.injEq] at h
      obtain ⟨⟨rfl, rfl, rfl⟩, hcache⟩ := h
      subst hcache
      simp [pipeline_geocode_lookup]
  · simp only [Prod.mk.injEq, Option.some.injEq] at h
    obtain ⟨⟨rfl, rfl, rfl⟩, hcache⟩ := h
    subst hcache
    simp [pipeline_geocode_lookup, hc]

/-- Geocoder oracle for the C9 witness: resolves one address. -/
def geoOracleC9 : String → Option ((ℚ × ℚ) × String) := fun q =>
  if q = "Hauptstrasse 5, Berlin" then some ((52, 13), "nominatim") else none

/-- A geocoder oracle returning junk: used to show the cached result wins. -/
def geoOracleJunk : String → Option ((ℚ × ℚ) × String) :=
  fun _ => some ((0, 0), "junk")

/-- The cache state after the first resolution of the C9 witness query. -/
def cacheC9 : String → Option CacheEntry := fun q =>
  if q = "Hauptstrasse 5, Berlin" then some ⟨52, 13, some "nominatim", 7⟩
  else none

/-- Witness for C9: after the first resolution stores the entry, a second
lookup with a junk geocoder still returns the cached coordinates. -/
theorem C9_cache_roundtrip_witness :
    pipeline_geocode_lookup cacheC9 geoOracleJunk 99 "Hauptstrasse 5, Berlin"
      = (some (52, 13, "nominatim"), cacheC9) :=
  C9_cache_roundtrip (fun _ => none) geoOracleC9 7 "Hauptstrasse 5, Berlin"
    52 13 "nominatim" cacheC9 rfl geoOracleJunk 99

/-! ### Geocode resolution ladder (claim C3) -/

/-- Python-whitespace test (the characters matched by a regex `\s` and
stripped by `str.strip()`). -/
def isPySpace (c : Char) : Bool :=
  c = ' ' ∨ c = '\t' ∨ c = '\n' ∨ c = '\r' ∨ c = '\x0b' ∨ c = '\x0c'

/-- Model of Python `str.strip()` (ASCII whitespace). -/
def pyTrim (s : String) : String :=
  ⟨((s.data.dropWhile (isPySpace ·)).reverse.dropWhile (isPySpace ·)).reverse⟩

/-- One element of an Overpass JSON response: its `type`, optional
coordinates, `tags` dictionary and `geometry` point list (each point with
optional `lat`/`lon` keys, as the source checks their presence). -/
structure OsmElement where
  typ : String := ""
  lat : Option ℚ := none
  lon : Option ℚ := none
  tags : Option (List (String × String)) := none
  geometry : Option (List (Option ℚ × Option ℚ)) := none
deriving DecidableEq

/-- An Overpass response body (`data` after `r.json()`); a failed request or
falsy body is modelled as `none` at the use sites. -/
structure OsmData where
  elements : List OsmElement := []
deriving DecidableEq

/-- Lookup in an element's `tags` dictionary. -/
def tagGet (tags : Option (List (String × String))) (k : String) : Option String :=
  match tags with
  | none => none
  | some ts => (ts.find? (fun p => p.1 = k)).map Prod.snd

/-- First element of type "node" carrying both `lat` and `lon`
(src/bot.py lines 1121-1124). -/
def findFirstNode : List OsmElement → Option (ℚ × ℚ)
  | [] => none
  | e :: rest =>
    if e.typ = "node" then
      match e.lat, e.lon with
      | some la, some lo => some (la, lo)
      | _, _ => findFirstNode rest
    else findFirstNode rest

/-- Tier 1 of `overpass_intersection`: the exact-shared-node query
(src/bot.py lines 1111-1124); `none` models a failed/falsy response. -/
def nodeStep (data : Option OsmData) : Option (ℚ × ℚ) :=
  match data with
  | none => none
  | some d => findFirstNode d.elements

/-- Points of a way geometry that carry both `lat` and `lon`
(src/bot.py lines 1157-1165). -/
def geomPts (g : Option (List (Option ℚ × Option ℚ))) : List (ℚ × ℚ) :=
  (g.getD []).filterMap (fun p =>
    match p with
    | (some la, some lo) => some (la, lo)
    | _ => none)

/-- Best-effort split of the geometry response's way points by street name
(src/bot.py lines 1149-1166): ways whose stripped `name` tag equals `a`
feed `pts_a`, those equal to `b` feed `pts_b`. -/
def collectByName (a b : String) : List OsmElement → List (ℚ × ℚ) × List (ℚ × ℚ)
  | [] => ([], [])
  | e :: rest =>
    let tailr := collectByName a b rest
    if e.typ ≠ "way" then tailr
    else
      match e.geometry with
      | none => tailr
      | some g =>
        if g = [] then tailr
        else
          let nm := pyTrim ((tagGet e.tags "name").getD "")
          if nm = a then (geomPts e.geometry ++ tailr.1, tailr.2)
          else if nm = b then (tailr.1, geomPts e.geometry ++ tailr.2)
          else tailr

/-- Brute-force nearest pair between the two point sets, first minimum wins
(src/bot.py lines 1187-1195); the pair list is in the source's loop order. -/
def bestPairGo (T : Trig) (acc : Option (ℚ × ((ℚ × ℚ) × (ℚ × ℚ)))) :
    List ((ℚ × ℚ) × (ℚ × ℚ)) → Option (ℚ × ((ℚ × ℚ) × (ℚ × ℚ)))
  | [] => acc
  | (p, q) :: rest =>
    let d := haversine_m T p.1 p.2 q.1 q.2
    match acc with
    | none => bestPairGo T (some (d, (p, q))) rest
    | some (bd, bpq) =>
      if d < bd then bestPairGo T (some (d, (p, q))) rest
      else bestPairGo T (some (bd, bpq)) rest

/-- Tier 2 of `overpass_intersection`: nearest-geometry midpoint
(src/bot.py lines 1128-1204).  Collect points by name, fall back to
splitting the way list in halves when either side is empty, cap both sides
at `MAX_GEOM_POINTS_PER_STREET = 500`, and return the midpoint of the
closest pair. -/
def geomStep (T : Trig) (a b : String) (geomResp : Option OsmData) :
    Option (ℚ × ℚ) :=
  match geomResp with
  | none => none
  | some data =>
    let col := collectByName a b data.elements
    let ways := data.elements.filter (fun e => e.typ = "way" ∧ e.geometry ≠ none)
    let col2 :=
      if col.1 = [] ∨ col.2 = [] then
        if 2 ≤ ways.length then
          let mid := ways.length / 2
          (col.1 ++ (ways.take mid).flatMap (fun e => geomPts e.geometry),
           col.2 ++ (ways.drop mid).flatMap (fun e => geomPts e.geometry))
        else col
      else col
    if col2.1 = [] ∨ col2.2 = [] then none
    else
      let pa := col2.1.take 500
      let pb := col2.2.take 500
      match bestPairGo T none (pa.flatMap (fun p => pb.map (fun q => (p, q)))) with
      | none => none
      | some (_, ((la1, lo1), (la2, lo2))) =>
        some ((la1 + la2) / 2, (lo1 + lo2) / 2)

/-- Embedding of `overpass_intersection` (src/bot.py lines 1103-1204): the
exact-node tier, then the nearest-geometry tier.  The two Overpass
responses are oracle inputs; `city` only feeds the query text. -/
def overpass_intersection (T : Trig) (city a b : String)
    (nodeResp geomResp : Option OsmData) : Option ((ℚ × ℚ) × String) :=
  match nodeStep nodeResp with
  | some c => some (c, "overpass_node")
  | none =>
    match geomStep T a b geomResp with
    | some c => some (c, "overpass_nearest")
    | none => none

/-- Case-insensitive literal match: strip the (lowercase) pattern from the
front of the input, comparing lowercased characters. -/
def stripCI : List Char → List Char → Option (List Char)
  | [], cs => some cs
  | _, [] => none
  | p :: ps, c :: cs => if lowerChar c = p then stripCI ps cs else none

/-- Regex `\s+` followed by maximal whitespace: require at least one
whitespace character and consume the run. -/
def reqSpace1 : List Char → Option (List Char)
  | [] => none
  | c :: rest => if isPySpace c then some (rest.dropWhile (isPySpace ·)) else none

/-- Lazy (shortest-first) regex group `(.+?)`: grow the group one character
at a time (never across a newline) until the continuation `k` accepts the
remainder.  This mirrors Python's leftmost-shortest semantics for lazy
groups. -/
def lazyGroupGo (k : List Char → Option α) (acc : List Char) :
    List Char → Option (List Char × α)
  | [] => none
  | c :: rest =>
    if c = '\n' then none
    else
      match k rest with
      | some v => some (acc ++ [c], v)
      | none => lazyGroupGo k (acc ++ [c]) rest

/-- Entry point for a lazy group. -/
def lazyGroup (k : List Char → Option α) (cs : List Char) :
    Option (List Char × α) :=
  lazyGroupGo k [] cs

/-- Matcher for `RE_INTERSECTION` (src/bot.py line 265 and
src/hm/core/constants.py line 8):
`^\s*intersection of\s+(.+?)\s+and\s+(.+?)\s*,\s*(.+?)\s*$`, ignoring
case.  Returns the three raw groups. -/
def matchIntersection (s : String) : Option (String × String × String) :=
  let cs := s.data.dropWhile (isPySpace ·)
  match stripCI "intersection of".data cs with
  | none => none
  | some cs1 =>
    match reqSpace1 cs1 with
    | none => none
    | some cs2 =>
      match lazyGroup (fun rest =>
          match reqSpace1 rest with
          | none => none
          | some r1 =>
            match stripCI "and".data r1 with
            | none => none
            | some r2 =>
              match reqSpace1 r2 with
              | none => none
              | some r3 =>
                lazyGroup (fun rest2 =>
                    match rest2.dropWhile (isPySpace ·) with
                    | ',' :: r4 =>
                      lazyGroup
                        (fun rest3 =>
                          if rest3.all (isPySpace ·) then some () else none)
                        (r4.dropWhile (isPySpace ·))
                    | _ => none) r3) cs2 with
      | some (g1, (g2, (g3, ()))) => some (⟨g1⟩, ⟨g2⟩, ⟨g3⟩)
      | none => none

/-- Embedding of `geocode_query_worldwide` (src/bot.py lines 1204-1256):
for an intersection-form query, try the Overpass node and geometry tiers,
then Nominatim on the full query, then each street alone in the city; a
plain query goes straight to Nominatim.  The Nominatim client is the
oracle `nom` (exceptions and failures are its `none`); the two Overpass
responses are oracle inputs. -/
def geocode_query_worldwide (T : Trig) (nom : String → Option (ℚ × ℚ))
    (query : String) (nodeResp geomResp : Option OsmData) :
    Option (ℚ × ℚ) × String :=
  match matchIntersection query with
  | some (g1, g2, g3) =>
    let a := pyTrim g1
    let b := pyTrim g2
    let city := pyTrim g3
    match overpass_intersection T city a b nodeResp geomResp with
    | some (c, method) => (some c, method)
    | none =>
      match nom query with
      | some c => (some c, "nominatim")
      | none =>
        match nom (a ++ ", " ++ city) with
        | some c => (some c, "fallback")
        | none =>
          match nom (b ++ ", " ++ city) with
          | some c => (some c, "fallback")
          | none => (none, "none")
  | none =>
    match nom query with
    | some c => (some c, "nominatim")
    | none => (none, "none")

/-- C3: the resolution ladder of `geocode_query_worldwide` for
intersection-form queries.  Each conjunct states that a tier's success
determines the result and that the result is then independent of every
lower tier's oracle (which is exactly "the lower tier is not attempted" in
this embedding), and that a tier is consulted only under the failure of all
higher tiers. -/
theorem C3_geocode_ladder (T : Trig) (nom : String → Option (ℚ × ℚ))
    (q g1 g2 g3 : String) (nodeResp geomResp : Option OsmData)
    (hq : matchIntersection q = some (g1, g2, g3)) :
    (∀ c, nodeStep nodeResp = some c →
      ∀ (g : Option OsmData) (nm : String → Option (ℚ × ℚ)),
        geocode_query_worldwide T nm q nodeResp g = (some c, "overpass_node"))
    ∧ (nodeStep nodeResp = none →
       ∀ c, geomStep T (pyTrim g1) (pyTrim g2) geomResp = some c →
        ∀ (nm : String → Option (ℚ × ℚ)),
          geocode_query_worldwide T nm q nodeResp geomResp
            = (some c, "overpass_nearest"))
    ∧ (overpass_intersection T (pyTrim g3) (pyTrim g1) (pyTrim g2)
          nodeResp geomResp = none →
       ∀ c, nom q = some c →
         geocode_query_worldwide T nom q nodeResp geomResp = (some c, "nominatim"))
    ∧ (overpass_intersection T (pyTrim g3) (pyTrim g1) (pyTrim g2)
          nodeResp geomResp = none → nom q = none →
       ∀ c, nom (pyTrim g1 ++ ", " ++ pyTrim g3) = some c →
         geocode_query_worldwide T nom q nodeResp geomResp = (some c, "fallback"))
    ∧ (overpass_intersection T (pyTrim g3) (pyTrim g1) (pyTrim g2)
          nodeResp geomResp = none → nom q = none →
       nom (pyTrim g1 ++ ", " ++ pyTrim g3) = none →
       ∀ c, nom (pyTrim g2 ++ ", " ++ pyTrim g3) = some c →
         geocode_query_worldwide T nom q nodeResp geomResp = (some c, "fallback"))
    ∧ (overpass_intersection T (pyTrim g3) (pyTrim g1) (pyTrim g2)
          nodeResp geomResp = none → nom q = none →
       nom (pyTrim g1 ++ ", " ++ pyTrim g3) = none →
       nom (pyTrim g2 ++ ", " ++ pyTrim g3) = none →
         geocode_query_worldwide T nom q nodeResp geomResp = (none, "none")) := by
  refine ⟨?_, ?_, ?_, ?_, ?_, ?_⟩
  · intro c hnode g nm
    simp [geocode_query_worldwide, hq, overpass_intersection, hnode]
  · intro hnode c hgeom nm
    simp [geocode_query_worldwide, hq, overpass_intersection, hnode, hgeom]
  · intro hov c hnom
    simp [geocode_query_worldwide, hq, hov, hnom]
  · intro hov hq1 c hfa
    simp [geocode_query_worldwide, hq, hov, hq1, hfa]
  · intro hov hq1 hfa c hfb
    simp [geocode_query_worldwide, hq, hov, hq1, hfa, hfb]
  · intro hov hq1 hfa hfb
    simp [geocode_query_worldwide, hq, hov, hq1, hfa, hfb]

/-- Node response used by the C3 witness: one shared node at (52, 13). -/
def nodeRespC3 : Option OsmData :=
  some ⟨[{ typ := "node", lat := some 52, lon := some 13 }]⟩

/-- A junk geometry response: would give a different answer if consulted. -/
def geomRespJunk : Option OsmData :=
  some ⟨[{ typ := "way",
           tags := some [("name", "Main St")],
           geometry := some [(some 1, some 1), (some 2, some 2)] }]⟩

/-- Nominatim oracle returning junk coordinates for every query. -/
def geoOracleJunkNom : String → Option (ℚ × ℚ) := fun _ => some (0, 0)

/-- Nominatim oracle for the C3 fallback tier: fails on the full query and
resolves only the first street alone in the city. -/
def nomFallbackC3 : String → Option (ℚ × ℚ) := fun s =>
  if s = "Main St, Springfield" then some (7, 8) else none

/-- Witness for C3, tier 1: with a successful exact-node response the result
is the node and the "overpass_nearest"/"nominatim" oracles are never
consulted (junk values for both leave the result unchanged); plus a tier-4
instance: with all of Overpass and the full-query Nominatim failing, the
first single-street fallback wins. -/
theorem C3_geocode_ladder_witness :
    (geocode_query_worldwide saneTrig geoOracleJunkNom
        "intersection of Main St and Oak Ave, Springfield" nodeRespC3 geomRespJunk
      = (some (52, 13), "overpass_node"))
    ∧ (geocode_query_worldwide saneTrig nomFallbackC3
        "intersection of Main St and Oak Ave, Springfield" none none
      = (some (7, 8), "fallback")) :=
  ⟨(C3_geocode_ladder saneTrig geoOracleJunkNom
      "intersection of Main St and Oak Ave, Springfield"
      "Main St" "Oak Ave" "Springfield" nodeRespC3 geomRespJunk (by decide)).1
      (52, 13) rfl geomRespJunk geoOracleJunkNom,
   (C3_geocode_ladder saneTrig nomFallbackC3
      "intersection of Main St and Oak Ave, Springfield"
      "Main St" "Oak Ave" "Springfield" none none (by decide)).2.2.2.1
      rfl rfl (7, 8) rfl⟩

/-! ### Way snapping (claims C4 and C5) -/

/-- Embedding of `math.degrees(x) = x * 180 / pi`. -/
def pyDegrees (T : Trig) (x : ℚ) : ℚ := x * 180 / T.pi

/-- Embedding of `_xy_m` (src/hm/domain/location.py lines 70-87):
equirectangular projection around `(lat0, lon0)`, in meters. -/
def _xy_m (T : Trig) (lat0 lon0 lat lon : ℚ) : ℚ × ℚ :=
  let R : ℚ := 6371000
  (pyRadians T (lon - lon0) * R * T.cos (pyRadians T lat0),
   pyRadians T (lat - lat0) * R)

/-- Embedding of `_latlon_from_xy` (src/hm/domain/location.py lines
89-105): inverse equirectangular projection. -/
def _latlon_from_xy (T : Trig) (lat0 lon0 x y : ℚ) : ℚ × ℚ :=
  let R : ℚ := 6371000
  let lat := lat0 + pyDegrees T (y / R)
  (lat, lon0 + pyDegrees T (x / (R * T.cos (pyRadians T lat0))))

/-- Consecutive segments of a polyline (`for i in range(len(pts) - 1)`). -/
def polySegs : List (ℚ × ℚ) → List ((ℚ × ℚ) × (ℚ × ℚ))
  | a :: b :: rest => (a, b) :: polySegs (b :: rest)
  | _ => []

/-- Inner loop of `_nearest_point_on_polyline_m` (src/hm/domain/location.py
lines 132-155): project the query point on each non-degenerate segment and
keep the strictly closer hit, first minimum winning. -/
def nearestPolyGo (T : Trig) (lat0 lon0 qx qy : ℚ)
    (best : Option (ℚ × ℚ × ℚ × (ℚ × ℚ))) :
    List ((ℚ × ℚ) × (ℚ × ℚ)) → Option (ℚ × ℚ × ℚ × (ℚ × ℚ))
  | [] => best
  | (a, b) :: rest =>
    let axy := _xy_m T lat0 lon0 a.1 a.2
    let bxy := _xy_m T lat0 lon0 b.1 b.2
    let dx := bxy.1 - axy.1
    let dy := bxy.2 - axy.2
    let seg2 := dx * dx + dy * dy
    if seg2 ≤ 1 / 1000000000 then nearestPolyGo T lat0 lon0 qx qy best rest
    else
      let t0 := ((qx - axy.1) * dx + (qy - axy.2) * dy) / seg2
      let t1 := if t0 < 0 then 0 else t0
      let t := if 1 < t1 then 1 else t1
      let px := axy.1 + t * dx
      let py := axy.2 + t * dy
      let dist := T.sqrt ((qx - px) ^ 2 + (qy - py) ^ 2)
      let seg_len := T.sqrt seg2
      let u := (dx / seg_len, dy / seg_len)
      let better :=
        match best with
        | none => true
        | some bb => decide (dist < bb.2.2.1)
      if better then
        let pll := _latlon_from_xy T lat0 lon0 px py
        nearestPolyGo T lat0 lon0 qx qy (some (pll.1, pll.2, dist, u)) rest
      else nearestPolyGo T lat0 lon0 qx qy best rest

/-- Embedding of `_nearest_point_on_polyline_m` (src/hm/domain/location.py
lines 107-159).  The distance slot is `Option ℚ` with `none` standing for
the `float("inf")` returned when no usable segment exists. -/
def _nearest_point_on_polyline_m (T : Trig) (lat0 lon0 : ℚ)
    (pts : List (ℚ × ℚ)) (qlat qlon : ℚ) : ℚ × ℚ × Option ℚ × (ℚ × ℚ) :=
  let q := _xy_m T lat0 lon0 qlat qlon
  match nearestPolyGo T lat0 lon0 q.1 q.2 none (polySegs pts) with
  | none => (qlat, qlon, none, (1, 0))
  | some (plat, plon, d, u) => (plat, plon, some d, u)

/-- IEEE-style `x < y` where `none` stands for `+inf`. -/
def distLt : Option ℚ → Option ℚ → Bool
  | none, _ => false
  | some _, none => true
  | some x, some y => decide (x < y)

/-- IEEE-style `x ≤ c` for a finite bound, where `none` stands for `+inf`. -/
def distLe (a : Option ℚ) (c : ℚ) : Bool :=
  match a with
  | none => false
  | some x => decide (x ≤ c)

/-- The Overpass responses `snap_to_public_way` can request: street
furniture by radius, highways by radius and walk-only flag, and buildings
around a point by radius. -/
structure SnapEnv where
  poiResp : ℤ → Option OsmData
  hwResp : ℤ → Bool → Option OsmData
  bldResp : ℚ → ℚ → ℤ → Option OsmData

/-- Embedding of the `is_public` helper (src/hm/domain/location.py lines
221-245) on a tags dictionary (the call sites pass `e.get("tags") or {}`,
so the non-dict branch cannot fire). -/
def is_public (ts : List (String × String)) : Bool :=
  let acc := pyLower (pyTrim ((tagGet (some ts) "access").getD ""))
  if acc = "private" ∨ acc = "no" then false
  else
    let foot := pyLower (pyTrim ((tagGet (some ts) "foot").getD ""))
    if foot = "no" ∨ foot = "private" then false
    else
      let hwv := pyLower (pyTrim ((tagGet (some ts) "highway").getD ""))
      let svc := pyLower (pyTrim ((tagGet (some ts) "service").getD ""))
      if hwv = "service" ∧ (svc = "driveway" ∨ svc = "parking_aisle") then false
      else
        let ind := pyLower (pyTrim ((tagGet (some ts) "indoor").getD ""))
        if ind = "yes" ∨ ind = "1" ∨ ind = "true" then false
        else true

/-- Embedding of `building_nearby` (src/hm/domain/location.py lines
248-265): true when the building query around the point returns any
element. -/
def building_nearby (env : SnapEnv) (qlat qlon : ℚ) (r : ℤ) : Bool :=
  match env.bldResp qlat qlon r with
  | none => false
  | some d => decide (d.elements ≠ [])

/-- Embedding of `fetch_pois` (src/hm/domain/location.py lines 268-286). -/
def fetch_pois (env : SnapEnv) (r : ℤ) : List OsmElement :=
  match env.poiResp r with
  | none => []
  | some d => d.elements

/-- POI note classification (src/hm/domain/location.py lines 307-315). -/
def poiNote (ts : List (String × String)) : String :=
  if pyLower (pyTrim ((tagGet (some ts) "leisure").getD "")) = "bench" then "bench"
  else if pyLower (pyTrim ((tagGet (some ts) "amenity").getD "")) = "waste_basket"
      ∨ pyLower (pyTrim ((tagGet (some ts) "amenity").getD "")) = "waste_disposal" then
    "waste"
  else if pyLower (pyTrim ((tagGet (some ts) "highway").getD "")) = "street_lamp" then
    "lamp"
  else "poi"

/-- Loop of `nearest_public_poi` (src/hm/domain/location.py lines
289-316): keep the strictly nearest public node POI. -/
def nearestPoiGo (T : Trig) (lat0 lon0 : ℚ)
    (best : Option (ℚ × ℚ × ℚ × String)) :
    List OsmElement → Option (ℚ × ℚ × ℚ × String)
  | [] => best
  | e :: rest =>
    if e.typ ≠ "node" then nearestPoiGo T lat0 lon0 best rest
    else
      let ts := e.tags.getD []
      if ¬is_public ts then nearestPoiGo T lat0 lon0 best rest
      else
        match e.lat, e.lon with
        | some plat, some plon =>
          let d := haversine_m T lat0 lon0 plat plon
          let better :=
            match best with
            | none => true
            | some bb => decide (d < bb.1)
          if better then
            nearestPoiGo T lat0 lon0 (some (d, plat, plon, poiNote ts)) rest
          else nearestPoiGo T lat0 lon0 best rest
        | _, _ => nearestPoiGo T lat0 lon0 best rest

/-- Embedding of `nearest_public_poi` with its default 15 m radius. -/
def nearest_public_poi (T : Trig) (env : SnapEnv) (lat0 lon0 : ℚ) :
    Option (ℚ × ℚ × String) :=
  match nearestPoiGo T lat0 lon0 none (fetch_pois env 15) with
  | none => none
  | some (_, plat, plon, note) => some (plat, plon, note)

/-- Embedding of `fetch_highways` (src/hm/domain/location.py lines
319-347). -/
def fetch_highways (env : SnapEnv) (r : ℤ) (onlyWalk : Bool) : List OsmElement :=
  match env.hwResp r onlyWalk with
  | none => []
  | some d => d.elements

/-- Walkable highway types (src/hm/domain/location.py line 350). -/
def walk_hw : List String := ["footway", "path", "pedestrian", "steps", "cycleway"]

/-- Road highway types (src/hm/domain/location.py line 351). -/
def road_hw : List String :=
  ["living_street", "residential", "service", "unclassified", "tertiary",
   "secondary", "primary"]

/-- All geometry points of a way when every point carries `lat` and `lon`;
`none` (way skipped) otherwise — the `ok` flag of the source. -/
def allPts : List (Option ℚ × Option ℚ) → Option (List (ℚ × ℚ))
  | [] => some []
  | (some la, some lo) :: rest => (allPts rest).map ((la, lo) :: ·)
  | _ => none

/-- Embedding of `collect_candidates` (src/hm/domain/location.py lines
354-390): public ways with a known highway type, full geometry and a
walk/road category. -/
def collect_candidates : List OsmElement → List (String × List (ℚ × ℚ) × List (String × String))
  | [] => []
  | e :: rest =>
    let tailr := collect_candidates rest
    if e.typ ≠ "way" then tailr
    else
      let ts := e.tags.getD []
      let hwv := pyLower (pyTrim ((tagGet (some ts) "highway").getD ""))
      if hwv = "" then tailr
      else if ¬is_public ts then tailr
      else
        match e.geometry with
        | none => tailr
        | some g =>
          if g.length < 2 then tailr
          else
            match allPts g with
            | none => tailr
            | some pts =>
              if hwv ∈ walk_hw ∨ hwv ∈ road_hw then (hwv, pts, ts) :: tailr
              else tailr

/-- The running "best" tuple of the main snapping loop
(src/hm/domain/location.py lines 411-427). -/
structure BestWay where
  plat : ℚ
  plon : ℚ
  dist : Option ℚ
  ux : ℚ
  uy : ℚ
  hw : String
  kind : String
deriving DecidableEq

/-- Step 2 of `snap_to_public_way` (src/hm/domain/location.py lines
410-422): prefer walkable ways over roads, within a kind prefer the
strictly nearest projection. -/
def snapBestGo (T : Trig) (lat0 lon0 : ℚ) (best : Option BestWay) :
    List (String × List (ℚ × ℚ) × List (String × String)) → Option BestWay
  | [] => best
  | (hw, pts, _) :: rest =>
    let kind := if hw ∈ walk_hw then "walk" else "road"
    let r := _nearest_point_on_polyline_m T lat0 lon0 pts lat0 lon0
    let cand : BestWay :=
      ⟨r.1, r.2.1, r.2.2.1, (r.2.2.2).1, (r.2.2.2).2, hw, kind⟩
    match best with
    | none => snapBestGo T lat0 lon0 (some cand) rest
    | some bb =>
      if bb.kind ≠ "walk" ∧ kind = "walk" then snapBestGo T lat0 lon0 (some cand) rest
      else if bb.kind = kind ∧ distLt cand.dist bb.dist then
        snapBestGo T lat0 lon0 (some cand) rest
      else snapBestGo T lat0 lon0 (some bb) rest

/-- Step 3 of `snap_to_public_way` (src/hm/domain/location.py lines
429-440): nearest walkway in the widened walk-only search. -/
def bestWalkGo (T : Trig) (lat0 lon0 : ℚ) (best : Option BestWay) :
    List (String × List (ℚ × ℚ) × List (String × String)) → Option BestWay
  | [] => best
  | (hw2, pts2, _) :: rest =>
    let r := _nearest_point_on_polyline_m T lat0 lon0 pts2 lat0 lon0
    let cand : BestWay :=
      ⟨r.1, r.2.1, r.2.2.1, (r.2.2.2).1, (r.2.2.2).2, hw2, "walk"⟩
    let better :=
      match best with
      | none => true
      | some bb => distLt cand.dist bb.dist
    if better then bestWalkGo T lat0 lon0 (some cand) rest
    else bestWalkGo T lat0 lon0 best rest

/-- Embedding of `snap_to_public_way` (src/hm/domain/location.py lines
165-478, identical logic in src/bot.py lines 511-752): POI preference,
walkable-way projection with road fallback, widened walk search, sideways
road offset toward the original point, and building avoidance. -/
def snap_to_public_way (T : Trig) (env : SnapEnv) (lat lon : ℚ) :
    ℚ × ℚ × String :=
  let lat0 := lat
  let lon0 := lon
  let poiHit :=
    match nearest_public_poi T env lat0 lon0 with
    | some (plat, plon, pnote) =>
      if ¬building_nearby env plat plon 4 then some (plat, plon, "snap_poi:" ++ pnote)
      else none
    | none => none
  match poiHit with
  | some hit => hit
  | none =>
    let cands := collect_candidates (fetch_highways env 120 false)
    if cands = [] then (lat, lon, "")
    else
      match snapBestGo T lat0 lon0 none cands with
      | none => (lat, lon, "")
      | some best0 =>
        let best1 :=
          if best0.kind = "road" then
            let cands2 := collect_candidates (fetch_highways env 220 true)
            match bestWalkGo T lat0 lon0 none cands2 with
            | some bw => if distLe bw.dist 45 then bw else best0
            | none => best0
          else best0
        let note0 := "snap_" ++ best1.kind ++ ":" ++ best1.hw
        let step4 :=
          if best1.kind = "road" then
            let n := (-best1.uy, best1.ux)
            let sxy := _xy_m T lat0 lon0 best1.plat best1.plon
            let oxy := _xy_m T lat0 lon0 lat0 lon0
            let v := (oxy.1 - sxy.1, oxy.2 - sxy.2)
            let n2 := if v.1 * n.1 + v.2 * n.2 < 0 then (-n.1, -n.2) else n
            let s2 := (sxy.1 + n2.1 * 10, sxy.2 + n2.2 * 10)
            let pll := _latlon_from_xy T lat0 lon0 s2.1 s2.2
            (pll.1, pll.2, "snap_road_offset:" ++ best1.hw)
          else (best1.plat, best1.plon, note0)
        if building_nearby env step4.1 step4.2.1 6 then
          let off : ℚ := if best1.kind = "road" then 14 else 4
          let n := (-best1.uy, best1.ux)
          let sxy := _xy_m T lat0 lon0 step4.1 step4.2.1
          let s2 := (sxy.1 + n.1 * off, sxy.2 + n.2 * off)
          let pll := _latlon_from_xy T lat0 lon0 s2.1 s2.2
          (pll.1, pll.2, step4.2.2 ++ "|avoid_building")
        else step4

/-- Python `int()` truncation toward zero on a rational. -/
def pyIntTrunc (q : ℚ) : ℤ := if q < 0 then -((-q).floor) else q.floor

/-- Configuration keys consumed by the snapping callers, with the source's
defaults (`cfg.get("snap_enabled", True)`, `cfg.get("snap_allow_gps",
False)`, `cfg.get("snap_max_m", 50.0)`, `cfg.get("loc_conflict_m",
150.0)`). -/
structure Config where
  snap_enabled : Bool := true
  snap_allow_gps : Bool := false
  snap_max_m : ℚ := 50
  loc_conflict_m : ℚ := 150

/-- Model of Python `str.startswith` on character lists. -/
def listIsPfx : List Char → List Char → Bool
  | [], _ => true
  | _, [] => false
  | p :: ps, c :: cs => p = c ∧ listIsPfx ps cs

/-- Embedding of `maybe_snap_to_public_way` (src/bot.py lines 754-781):
snap with the hard max-displacement guard; GPS coordinates are skipped
unless `snap_allow_gps` is set.  Returns
`(lat, lon, geocode_method, snap_note)`. -/
def maybe_snap_to_public_way (T : Trig) (env : SnapEnv) (lat lon : ℚ)
    (cfg : Config) (gm : String) : ℚ × ℚ × String × String :=
  if ¬cfg.snap_enabled then (lat, lon, gm, "snap_disabled")
  else if listIsPfx "gps".data gm.data ∧ ¬cfg.snap_allow_gps then
    (lat, lon, gm, "snap_skipped:gps")
  else
    let s := snap_to_public_way T env lat lon
    if s.2.2 = "" then (lat, lon, gm, "")
    else
      let d := haversine_m T lat lon s.1 s.2.1
      if d ≤ cfg.snap_max_m then (s.1, s.2.1, gm ++ "+" ++ s.2.2, s.2.2)
      else (lat, lon, gm, s.2.2 ++ "+rejected:" ++ toString (pyIntTrunc d) ++ "m")

/-- Embedding of the inline guarded snap in the explicit-coordinates branch
of the bot.py ingest (src/bot.py lines 3346-3360): the snap is applied to
the parsed coordinates and rejected when it moves them more than
`snap_max_m`. -/
def coords_branch_snap (T : Trig) (env : SnapEnv) (cfg : Config)
    (lat lon : ℚ) : ℚ × ℚ × String × String :=
  let s := snap_to_public_way T env lat lon
  if s.2.2 = "" then (lat, lon, "gps", "")
  else
    let d := haversine_m T lat lon s.1 s.2.1
    if d ≤ cfg.snap_max_m then (s.1, s.2.1, "gps" ++ "+" ++ s.2.2, s.2.2)
    else (lat, lon, "gps", s.2.2 ++ "+rejected:" ++ toString (pyIntTrunc d) ++ "m")

/-- Embedding of the coordinate handling of `Pipeline._handle_status` for
explicit (GPS) coordinates (src/hm/core/pipeline.py lines 126-160): method
"gps", then `snap_to_public_way` applied unconditionally, its note
appended to the method. -/
def pipeline_store_gps (T : Trig) (env : SnapEnv) (lat lon : ℚ) :
    ℚ × ℚ × String :=
  let s := snap_to_public_way T env lat lon
  (s.1, s.2.1, if s.2.2 = "" then "gps" else "gps" ++ "+" ++ s.2.2)

/-- Environment for the snap counterexample: one public bench node at
(lat 50, lon 14), no highways at any radius, no buildings. -/
def snapEnvBench : SnapEnv :=
  { poiResp := fun r =>
      if r = 15 then
        some ⟨[{ typ := "node", lat := some 50, lon := some 14,
                 tags := some [("leisure", "bench")] }]⟩
      else none,
    hwResp := fun _ _ => none,
    bldResp := fun _ _ _ => none }

/-- C4 counterexample: in an environment where the highway searches find no
way at all, the snapper still moves the point onto a nearby street
furniture POI with a non-empty note, so "no public way found implies
output equals input with an empty note" fails as stated. -/
theorem C4_counterexample :
    fetch_highways snapEnvBench 120 false = []
    ∧ fetch_highways snapEnvBench 220 true = []
    ∧ snap_to_public_way saneTrig snapEnvBench 50 13 = (50, 14, "snap_poi:bench")
    ∧ ((50 : ℚ), (14 : ℚ), "snap_poi:bench") ≠ ((50 : ℚ), (13 : ℚ), "") := by
  refine ⟨rfl, rfl, rfl, by decide⟩

/-- C4 (amended): both guarded snap paths (the helper
`maybe_snap_to_public_way` and the inline guard of the explicit-coordinate
branch) either keep the input coordinates unchanged or move them by at most
the configured `snap_max_m`; and when neither a street-furniture POI nor
any public way is found, the snapper returns its input with an empty
note. -/
theorem C4_snap_guard :
    (∀ (T : Trig) (env : SnapEnv) (lat lon : ℚ) (cfg : Config) (gm : String),
      ((maybe_snap_to_public_way T env lat lon cfg gm).1,
       (maybe_snap_to_public_way T env lat lon cfg gm).2.1) = (lat, lon)
      ∨ haversine_m T lat lon (maybe_snap_to_public_way T env lat lon cfg gm).1
          (maybe_snap_to_public_way T env lat lon cfg gm).2.1 ≤ cfg.snap_max_m)
    ∧ (∀ (T : Trig) (env : SnapEnv) (cfg : Config) (lat lon : ℚ),
      ((coords_branch_snap T env cfg lat lon).1,
       (coords_branch_snap T env cfg lat lon).2.1) = (lat, lon)
      ∨ haversine_m T lat lon (coords_branch_snap T env cfg lat lon).1
          (coords_branch_snap T env cfg lat lon).2.1 ≤ cfg.snap_max_m)
    ∧ (∀ (T : Trig) (env : SnapEnv) (lat lon : ℚ),
      nearest_public_poi T env lat lon = none →
      collect_candidates (fetch_highways env 120 false) = [] →
      snap_to_public_way T env lat lon = (lat, lon, "")) := by
  refine ⟨?_, ?_, ?_⟩
  · intro T env lat lon cfg gm
    simp only [maybe_snap_to_public_way]
    split_ifs with h1 h2 h3 h4 <;>
      first
        | exact Or.inl rfl
        | exact Or.inr (by assumption)
  · intro T env cfg lat lon
    simp only [coords_branch_snap]
    split_ifs with h1 h2 <;>
      first
        | exact Or.inl rfl
        | exact Or.inr (by assumption)
  · intro T env lat lon hpoi hcands
    simp [snap_to_public_way, hpoi, hcands]

/-- Witness for C4: the guard disjunction at a concrete rejected snap (the
bench is ~70 km away under the concrete trig model, beyond the 50 m
guard), and the identity behavior in an empty environment. -/
theorem C4_snap_guard_witness :
    (((maybe_snap_to_public_way saneTrig snapEnvBench 50 13 {} "nominatim").1,
      (maybe_snap_to_public_way saneTrig snapEnvBench 50 13 {} "nominatim").2.1)
        = (50, 13)
      ∨ haversine_m saneTrig 50 13
          (maybe_snap_to_public_way saneTrig snapEnvBench 50 13 {} "nominatim").1
          (maybe_snap_to_public_way saneTrig snapEnvBench 50 13 {} "nominatim").2.1
          ≤ (Config.mk true false 50 150).snap_max_m)
    ∧ (((coords_branch_snap saneTrig snapEnvBench {} 50 13).1,
        (coords_branch_snap saneTrig snapEnvBench {} 50 13).2.1) = (50, 13)
      ∨ haversine_m saneTrig 50 13
          (coords_branch_snap saneTrig snapEnvBench {} 50 13).1
          (coords_branch_snap saneTrig snapEnvBench {} 50 13).2.1
          ≤ (Config.mk true false 50 150).snap_max_m)
    ∧ snap_to_public_way saneTrig
        ⟨fun _ => none, fun _ _ => none, fun _ _ _ => none⟩ 50 13 = (50, 13, "") :=
  ⟨C4_snap_guard.1 saneTrig snapEnvBench 50 13 {} "nominatim",
   C4_snap_guard.2.1 saneTrig snapEnvBench {} 50 13,
   C4_snap_guard.2.2 saneTrig ⟨fun _ => none, fun _ _ => none, fun _ _ _ => none⟩
     50 13 rfl rfl⟩

/-- C5: the refactored pipeline stores snapped coordinates for explicit
(GPS) coordinates unconditionally — at the concrete bench environment the
stored point (50, 14) differs from the parsed (50, 13) — although the
monolith helper `maybe_snap_to_public_way` explicitly skips GPS
coordinates unless `snap_allow_gps` is configured. -/
theorem C5_pipeline_snaps_gps_coords :
    pipeline_store_gps saneTrig snapEnvBench 50 13 = (50, 14, "gps+snap_poi:bench")
    ∧ ((50 : ℚ), (14 : ℚ)) ≠ ((50 : ℚ), (13 : ℚ))
    ∧ maybe_snap_to_public_way saneTrig snapEnvBench 50 13 {} "gps"
        = (50, 13, "gps", "snap_skipped:gps") := by
  refine ⟨rfl, by decide, rfl⟩

/-! ### Location-text parsing (claims C6 and C7) -/

/-- ASCII decimal digit test (regex `\d`). -/
def isDig (c : Char) : Bool := '0' ≤ c ∧ c ≤ '9'

/-- Numeric value of a digit character. -/
def digitVal (c : Char) : ℕ := c.toNat - 48

/-- Integer value of a digit string (Python `float` on the integer part). -/
def natOfDigits : List Char → ℕ
  | [] => 0
  | c :: cs => digitVal c * 10 ^ cs.length + natOfDigits cs

/-- Fractional value of the digit string after the decimal point. -/
def fracOfDigits : List Char → ℚ
  | [] => 0
  | c :: cs => ((digitVal c : ℚ) + fracOfDigits cs) / 10

/-- Value of a parsed signed decimal literal (`float(m.group(i))`). -/
def decValue (neg : Bool) (ip fp : List Char) : ℚ :=
  let v := (natOfDigits ip : ℚ) + fracOfDigits fp
  if neg then -v else v

/-- Parse `-?\d{1,maxInt}\.\d+` at the start of the input (the greedy/lazy
behavior of the bounded digit group is deterministic here because a longer
digit run blocks the mandatory decimal point). -/
def parseSignedDec (maxInt : ℕ) (cs : List Char) :
    Option ((Bool × List Char × List Char) × List Char) :=
  let sgn : Bool × List Char :=
    match cs with
    | '-' :: r => (true, r)
    | _ => (false, cs)
  let ds := sgn.2.takeWhile (isDig ·)
  let cs2 := sgn.2.dropWhile (isDig ·)
  if ds = [] then none
  else if maxInt < ds.length then none
  else
    match cs2 with
    | '.' :: cs3 =>
      let fs := cs3.takeWhile (isDig ·)
      let cs4 := cs3.dropWhile (isDig ·)
      if fs = [] then none else some ((sgn.1, ds, fs), cs4)
    | _ => none

/-- Match `RE_COORDS` at the current position:
`(-?\d{1,2}\.\d+)\s*,\s*(-?\d{1,3}\.\d+)` (src/hm/core/constants.py line 4,
src/bot.py line 261).  Returns the two raw signed digit groups; the
caller's `float(...)` conversion is `decValue`. -/
def matchCoordsAt (cs : List Char) :
    Option ((Bool × List Char × List Char) × (Bool × List Char × List Char)) :=
  match parseSignedDec 2 cs with
  | none => none
  | some (g1, r1) =>
    match r1.dropWhile (isPySpace ·) with
    | ',' :: r2 =>
      match parseSignedDec 3 (r2.dropWhile (isPySpace ·)) with
      | none => none
      | some (g2, _) => some (g1, g2)
    | _ => none

/-- `RE_COORDS.search`: leftmost match over all start positions. -/
def reCoordsSearch : List Char →
    Option ((Bool × List Char × List Char) × (Bool × List Char × List Char))
  | [] => none
  | c :: rest =>
    match matchCoordsAt (c :: rest) with
    | some v => some v
    | none => reCoordsSearch rest

/-- The coordinate values of a raw `RE_COORDS` match
(`float(m.group(1)), float(m.group(2))`). -/
def coordsValue (g : (Bool × List Char × List Char) × (Bool × List Char × List Char)) :
    ℚ × ℚ :=
  (decValue g.1.1 g.1.2.1 g.1.2.2, decValue g.2.1 g.2.2.1 g.2.2.2)

/-- Partial model of Python `html.unescape`, covering the five standard
entities; texts without `&` pass through unchanged, as in the source. -/
def htmlUnescape : List Char → List Char
  | [] => []
  | '&' :: 'a' :: 'm' :: 'p' :: ';' :: rest => '&' :: htmlUnescape rest
  | '&' :: 'l' :: 't' :: ';' :: rest => '<' :: htmlUnescape rest
  | '&' :: 'g' :: 't' :: ';' :: rest => '>' :: htmlUnescape rest
  | '&' :: 'q' :: 'u' :: 'o' :: 't' :: ';' :: rest => '"' :: htmlUnescape rest
  | '&' :: '#' :: '3' :: '9' :: ';' :: rest => '\'' :: htmlUnescape rest
  | c :: rest => c :: htmlUnescape rest

/-- Degree-sign characters of the DMS pattern (`[°º]`). -/
def isDegChar (c : Char) : Bool := c = '°' ∨ c = 'º'

/-- Minute-mark characters of the DMS pattern. -/
def isMinChar (c : Char) : Bool := c = '\'' ∨ c = '’' ∨ c = '′'

/-- Second-mark characters of the DMS pattern. -/
def isSecChar (c : Char) : Bool := c = '"' ∨ c = '”' ∨ c = '″'

/-- Hemisphere letters, case-insensitive. -/
def isHemi (c : Char) : Bool :=
  let l := lowerChar c
  l = 'n' ∨ l = 's' ∨ l = 'e' ∨ l = 'w'

/-- One match attempt of the DMS regex of `parse_location`
(src/hm/domain/parse_post.py line 73, src/bot.py line 1010):
`(\d{1,3})\s*[°º]\s*(\d{1,2})\s*['’′]\s*(\d{1,2}(?:[\.,]\d+)?)\s*(?:["”″])?\s*([NSEW])`.
Returns the groups (degrees, minutes, seconds integer and fraction digits,
hemisphere letter) and the rest of the input after the match. -/
def dmsTry (cs : List Char) : Option ((List Char × List Char × (List Char × List Char) × Char) × List Char) :=
  let dg := cs.takeWhile (isDig ·)
  let r0 := cs.dropWhile (isDig ·)
  if dg = [] ∨ 3 < dg.length then none
  else
    match r0.dropWhile (isPySpace ·) with
    | c1 :: r1 =>
      if ¬isDegChar c1 then none
      else
        let r2 := r1.dropWhile (isPySpace ·)
        let mi := r2.takeWhile (isDig ·)
        let r3 := r2.dropWhile (isDig ·)
        if mi = [] ∨ 2 < mi.length then none
        else
          match r3.dropWhile (isPySpace ·) with
          | c2 :: r4 =>
            if ¬isMinChar c2 then none
            else
              let r5 := r4.dropWhile (isPySpace ·)
              let se := r5.takeWhile (isDig ·)
              let r6 := r5.dropWhile (isDig ·)
              if se = [] ∨ 2 < se.length then none
              else
                let fr : List Char × List Char :=
                  match r6 with
                  | '.' :: r7 =>
                    let f := r7.takeWhile (isDig ·)
                    if f = [] then ([], r6) else (f, r7.dropWhile (isDig ·))
                  | ',' :: r7 =>
                    let f := r7.takeWhile (isDig ·)
                    if f = [] then ([], r6) else (f, r7.dropWhile (isDig ·))
                  | _ => ([], r6)
                let r8 := fr.2.dropWhile (isPySpace ·)
                let r9 :=
                  match r8 with
                  | c3 :: r9' => if isSecChar c3 then r9' else r8
                  | [] => r8
                match r9.dropWhile (isPySpace ·) with
                | c4 :: r10 =>
                  if isHemi c4 then some ((dg, mi, (se, fr.1), c4), r10)
                  else none
                | [] => none
          | [] => none
    | [] => none

/-- `re.findall` over the DMS pattern: scan left to right, non-overlapping,
resuming after each match.  `fuel` bounds the scan; callers pass the input
length plus one. -/
def dmsFindAll (fuel : ℕ) (cs : List Char) :
    List (List Char × List Char × (List Char × List Char) × Char) :=
  match fuel with
  | 0 => []
  | fuel' + 1 =>
    match cs with
    | [] => []
    | c :: rest =>
      match dmsTry (c :: rest) with
      | some (g, restAfter) => g :: dmsFindAll fuel' restAfter
      | none => dmsFindAll fuel' rest

/-- Uppercase of a hemisphere letter (`str.upper()`, ASCII). -/
def upperHemi (c : Char) : Char :=
  match c with
  | 'n' => 'N' | 's' => 'S' | 'e' => 'E' | 'w' => 'W' | c => c

/-- `to_dd`: degrees + minutes/60 + seconds/3600, negated for S/W
(src/hm/domain/parse_post.py lines 77-82). -/
def toDD (dg mi : List Char) (se : List Char × List Char) (hemi : Char) :
    ℚ × Char :=
  let dd : ℚ := (natOfDigits dg : ℚ) + (natOfDigits mi : ℚ) / 60
    + ((natOfDigits se.1 : ℚ) + fracOfDigits se.2) / 3600
  let h := upperHemi hemi
  (if h = 'S' ∨ h = 'W' then -dd else dd, h)

/-- Accumulation loop over the DMS hits (src/hm/domain/parse_post.py lines
83-92): first in-range N/S hit fixes the latitude, first in-range E/W hit
the longitude; return as soon as both are set. -/
def dmsAccum (lat lon : Option ℚ) :
    List (List Char × List Char × (List Char × List Char) × Char) →
      Option (ℚ × ℚ)
  | [] => none
  | (dg, mi, se, hemi) :: rest =>
    let r := toDD dg mi se hemi
    let lat' :=
      if (r.2 = 'N' ∨ r.2 = 'S') ∧ lat = none ∧ -90 ≤ r.1 ∧ r.1 ≤ 90 then some r.1
      else lat
    let lon' :=
      if (r.2 = 'E' ∨ r.2 = 'W') ∧ lon = none ∧ -180 ≤ r.1 ∧ r.1 ≤ 180 then some r.1
      else lon
    match lat', lon' with
    | some la, some lo => some (la, lo)
    | _, _ => dmsAccum lat' lon' rest

/-- The DMS branch of `parse_location` (`_coords_dms`). -/
def coordsDms (cs : List Char) : Option (ℚ × ℚ) :=
  dmsAccum none none (dmsFindAll (cs.length + 1) cs)

/-- Split a character list at a separator character (kernel-reducible
model of `str.split(sep)` for one-character separators). -/
def splitCharGo (sep : Char) (acc : List Char) : List Char → List String
  | [] => [⟨acc.reverse⟩]
  | c :: rest =>
    if c = sep then ⟨acc.reverse⟩ :: splitCharGo sep [] rest
    else splitCharGo sep (c :: acc) rest

/-- Split a string at a separator character. -/
def splitChar (sep : Char) (s : String) : List String := splitCharGo sep [] s.data

/-- Join strings with a separator (`sep.join(parts)`). -/
def joinSep (sep : String) : List String → String
  | [] => ""
  | [a] => a
  | a :: rest => a ++ sep ++ joinSep sep rest

/-- Model of `str.splitlines()` for newline-separated text. -/
def splitLines (s : String) : List String := splitChar '\n' s

/-- Model of the regex `\w` (word character): ASCII letters, digits,
underscore, extended with the German letters the reports use. -/
def isWordChar (c : Char) : Bool :=
  ('a' ≤ c ∧ c ≤ 'z') ∨ ('A' ≤ c ∧ c ≤ 'Z') ∨ isDig c ∨ c = '_'
  ∨ c = 'ä' ∨ c = 'ö' ∨ c = 'ü' ∨ c = 'ß' ∨ c = 'Ä' ∨ c = 'Ö' ∨ c = 'Ü'

/-- One mention `@\w+(?:@\w+)?` of the pure-mentions pattern. -/
def mention1 : List Char → Option (List Char)
  | '@' :: rest =>
    let w := rest.takeWhile (isWordChar ·)
    let r := rest.dropWhile (isWordChar ·)
    if w = [] then none
    else
      match r with
      | '@' :: r2 =>
        let w2 := r2.takeWhile (isWordChar ·)
        let r3 := r2.dropWhile (isWordChar ·)
        if w2 = [] then none else some r3
      | _ => some r
  | _ => none

/-- Tail loop `(?:\s+@\w+(?:@\w+)?)*$` of the pure-mentions pattern. -/
def mentionsRestGo (fuel : ℕ) (cs : List Char) : Bool :=
  match fuel with
  | 0 => false
  | fuel' + 1 =>
    if cs = [] then true
    else
      match reqSpace1 cs with
      | none => false
      | some r1 =>
        match mention1 r1 with
        | none => false
        | some r2 => mentionsRestGo fuel' r2

/-- Embedding of `is_pure_mentions` (src/hm/domain/parse_post.py lines
105-106): full match of `(?:@\w+(?:@\w+)?)(?:\s+@\w+(?:@\w+)?)*`. -/
def is_pure_mentions (ln : String) : Bool :=
  match mention1 ln.data with
  | none => false
  | some r => mentionsRestGo (r.length + 1) r

/-- Strip the prefix `^\s*(ort|location|place)\s*:\s*` (case-insensitive),
first substitution of `normalize_location_line`. -/
def stripLocPfx (cs : List Char) : List Char :=
  let t := cs.dropWhile (isPySpace ·)
  let kw :=
    match stripCI "ort".data t with
    | some r => some r
    | none =>
      match stripCI "location".data t with
      | some r => some r
      | none => stripCI "place".data t
  match kw with
  | none => cs
  | some r1 =>
    match r1.dropWhile (isPySpace ·) with
    | ':' :: r2 => r2.dropWhile (isPySpace ·)
    | _ => cs

/-- Whether the next original character is a word character. -/
def headIsWord : List Char → Bool
  | c :: _ => isWordChar c
  | [] => false

/-- Substitution `(?i)(?<=\w)str\.\b → straße` of `normalize_location_line`:
the boundary after the dot requires the next character to be a word
character.  `prevWord` tracks whether the previous original character is a
word character (the lookbehind). -/
def subStrDot (prevWord : Bool) : List Char → List Char
  | c1 :: c2 :: c3 :: c4 :: rest =>
    if prevWord ∧ lowerChar c1 = 's' ∧ lowerChar c2 = 't' ∧ lowerChar c3 = 'r'
        ∧ c4 = '.' ∧ headIsWord rest then
      "straße".data ++ subStrDot false rest
    else c1 :: subStrDot (isWordChar c1) (c2 :: c3 :: c4 :: rest)
  | c :: rest => c :: subStrDot (isWordChar c) rest
  | [] => []

/-- Substitution `(?i)(?<=\w)str\b → straße`: the boundary after `r`
requires end of input or a non-word character. -/
def subStrBare (prevWord : Bool) : List Char → List Char
  | c1 :: c2 :: c3 :: rest =>
    if prevWord ∧ lowerChar c1 = 's' ∧ lowerChar c2 = 't' ∧ lowerChar c3 = 'r'
        ∧ ¬headIsWord rest then
      "straße".data ++ subStrBare true rest
    else c1 :: subStrBare (isWordChar c1) (c2 :: c3 :: rest)
  | c :: rest => c :: subStrBare (isWordChar c) rest
  | [] => []

/-- Substitution `\., → ,`. -/
def subDotComma : List Char → List Char
  | '.' :: ',' :: rest => ',' :: subDotComma rest
  | c :: rest => c :: subDotComma rest
  | [] => []

/-- Substitution `\s+ → " "`. -/
def collapseWsGo (inWs : Bool) : List Char → List Char
  | [] => []
  | c :: rest =>
    if isPySpace c then
      if inWs then collapseWsGo true rest else ' ' :: collapseWsGo true rest
    else c :: collapseWsGo false rest

/-- Embedding of `normalize_location_line` (src/hm/domain/parse_post.py
lines 49-56, identical in src/bot.py lines 406-422). -/
def normalize_location_line (s : String) : String :=
  let t := (pyTrim s).data
  let t1 := stripLocPfx t
  let t2 := subStrDot false t1
  let t3 := subStrBare false t2
  let t4 := subDotComma t3
  ⟨collapseWsGo false t4⟩

/-- Substring containment (Python `in` on strings). -/
def subInList (pat : List Char) : List Char → Bool
  | [] => decide (pat = [])
  | c :: rest => listIsPfx pat (c :: rest) ∨ subInList pat rest

/-- Python `pat in s` for strings. -/
def containsSub (s pat : String) : Bool := subInList pat.data s.data

/-- Python `s.rsplit(" ", 1)` when a space exists: the part before the last
space and the part after it. -/
def rsplitSpace (s : String) : Option (String × String) :=
  let rev := s.data.reverse
  let tail := rev.takeWhile (· ≠ ' ')
  match rev.dropWhile (· ≠ ' ') with
  | ' ' :: revHead => some (⟨revHead.reverse⟩, ⟨tail.reverse⟩)
  | _ => none

/-- Embedding of `heuristic_fix_crossing` (src/hm/domain/parse_post.py
lines 58-65, and the identical inline block of the source
`parse_location`): insert the missing comma before the city in a crossing
expression. -/
def heuristic_fix_crossing (candidate : String) : String :=
  if ¬containsSub candidate "," ∧ (containsSub candidate " / "
      ∨ containsSub candidate " x " ∨ containsSub candidate " & ") then
    match rsplitSpace candidate with
    | some (l, r) =>
      if pyTrim l ≠ "" ∧ pyTrim r ≠ "" then pyTrim l ++ ", " ++ pyTrim r
      else candidate
    | none => candidate
  else candidate

/-- Embedding of the larger `heuristic_fix_crossing` of the monolith
(src/bot.py lines 784-814): additionally rewrite comma-separated streets
with a trailing city into crossing form. -/
def heuristic_fix_crossing_bot (query : String) : String :=
  let q := pyTrim query
  if q = "" then q
  else if ¬containsSub q "," ∧ (containsSub q " / "
      ∨ containsSub q " x " ∨ containsSub q " & ") then
    match rsplitSpace q with
    | some (l, r) =>
      if pyTrim l ≠ "" ∧ pyTrim r ≠ "" then pyTrim l ++ ", " ++ pyTrim r else q
    | none => q
  else if ¬containsSub q "/" ∧ ¬containsSub q " x " ∧ ¬containsSub q " & "
      ∧ containsSub q "," then
    let parts := ((splitChar ',' q).map pyTrim).filter (· ≠ "")
    match parts with
    | [a, rest] =>
      match rsplitSpace rest with
      | some (b, city) =>
        if pyTrim b ≠ "" ∧ pyTrim city ≠ "" then
          a ++ " / " ++ pyTrim b ++ ", " ++ pyTrim city
        else q
      | none => q
    | a :: p1 :: p2 :: more =>
      let mids := p1 :: p2 :: more
      let city := mids.getLast (by simp)
      let b := pyTrim (joinSep ", " (mids.dropLast))
      if b ≠ "" ∧ city ≠ "" then a ++ " / " ++ b ++ ", " ++ city else q
    | _ => q
  else q

/-- ASCII letter test (regex `[a-zA-Z]`). -/
def isAsciiAlpha (c : Char) : Bool :=
  ('a' ≤ c ∧ c ≤ 'z') ∨ ('A' ≤ c ∧ c ≤ 'Z')

/-- Final group `(.+)$` of the line patterns: the whole remainder, which
must be non-empty and stay on the line. -/
def lastGroup (cs : List Char) : Option (List Char) :=
  if cs ≠ [] ∧ '\n' ∉ cs then some cs else none

/-- Matcher for `RE_ADDRESS`:
`^(.+?)\s+(\d+[a-zA-Z]?)\s*,\s*(.+)$` (src/hm/core/constants.py line 5). -/
def matchAddressRe (s : String) : Option (String × String × String) :=
  (lazyGroup (fun rest =>
    match reqSpace1 rest with
    | none => none
    | some r1 =>
      let ds := r1.takeWhile (isDig ·)
      let r2 := r1.dropWhile (isDig ·)
      if ds = [] then none
      else
        let numAndRest : List Char × List Char :=
          match r2 with
          | c :: r3 => if isAsciiAlpha c then (ds ++ [c], r3) else (ds, r2)
          | [] => (ds, r2)
        match numAndRest.2.dropWhile (isPySpace ·) with
        | ',' :: r4 =>
          match lastGroup (r4.dropWhile (isPySpace ·)) with
          | some g3 => some (numAndRest.1, g3)
          | none => none
        | _ => none) s.data).map
    (fun r => (⟨r.1⟩, ⟨r.2.1⟩, ⟨r.2.2⟩))

/-- The crossing separator `(?:/| x | & )`, case-insensitive `x`. -/
def sepTry : List Char → Option (List Char)
  | '/' :: r => some r
  | ' ' :: c :: ' ' :: r =>
    if lowerChar c = 'x' ∨ c = '&' then some r else none
  | _ => none

/-- Greedy `\s*` before the separator, with backtracking: try the position
after all whitespace first, then progressively give characters back. -/
def sepBackRev (revSp rest : List Char) : Option (List Char) :=
  match sepTry rest with
  | some r => some r
  | none =>
    match revSp with
    | [] => none
    | c :: revSp' => sepBackRev revSp' (c :: rest)

/-- Matcher for `RE_CROSS`:
`^(.+?)\s*(?:/| x | & )\s*(.+?)\s*,\s*(.+)$`, ignoring case
(src/hm/core/constants.py line 7). -/
def matchCrossRe (s : String) : Option (String × String × String) :=
  (lazyGroup (fun rest =>
    match sepBackRev ((rest.takeWhile (isPySpace ·)).reverse)
        (rest.dropWhile (isPySpace ·)) with
    | none => none
    | some r1 =>
      lazyGroup (fun rest2 =>
        match rest2.dropWhile (isPySpace ·) with
        | ',' :: r3 => lastGroup (r3.dropWhile (isPySpace ·))
        | _ => none) (r1.dropWhile (isPySpace ·))) s.data).map
    (fun r => (⟨r.1⟩, ⟨r.2.1⟩, ⟨r.2.2⟩))

/-- Matcher for `RE_STREET_CITY`: `^(.+?)\s*,\s*(.+)$`
(src/hm/core/constants.py line 6). -/
def matchStreetCityRe (s : String) : Option (String × String) :=
  (lazyGroup (fun rest =>
    match rest.dropWhile (isPySpace ·) with
    | ',' :: r3 => lastGroup (r3.dropWhile (isPySpace ·))
    | _ => none) s.data).map
    (fun r => (⟨r.1⟩, ⟨r.2⟩))

/-- Try the three line patterns in order on a candidate line and build the
normalized query exactly as `parse_location` does. -/
def lineToQuery (candidate : String) : Option String :=
  match matchAddressRe candidate with
  | some (street, number, city) =>
    some (pyTrim street ++ " " ++ pyTrim number ++ ", " ++ pyTrim city)
  | none =>
    match matchCrossRe candidate with
    | some (a, b, city) =>
      some ("intersection of " ++ pyTrim a ++ " and " ++ pyTrim b ++ ", " ++ pyTrim city)
    | none =>
      match matchStreetCityRe candidate with
      | some (street, city) => some (pyTrim street ++ ", " ++ pyTrim city)
      | none => none

/-- Line scan of `parse_location`, parametrized by the candidate transform
(the refactor and the monolith normalize candidate lines differently). -/
def scanLines (fix : String → String) : List String → Option String
  | [] => none
  | ln :: rest =>
    let low := pyLower ln
    if listIsPfx "#".data low.data then scanLines fix rest
    else if listIsPfx "@".data low.data ∧ is_pure_mentions ln then
      scanLines fix rest
    else
      match lineToQuery (fix ln) with
      | some q => some q
      | none => scanLines fix rest

/-- Shared body of the two `parse_location` variants: unescape, DMS
coordinates, decimal coordinates, then the line scan. -/
def parseLocationWith (fix : String → String) (text : String) :
    Option (ℚ × ℚ) × Option String :=
  let t := htmlUnescape text.data
  match coordsDms t with
  | some c => (some c, none)
  | none =>
    match reCoordsSearch t with
    | some g => (some (coordsValue g), none)
    | none =>
      let lines := ((splitLines ⟨t⟩).map pyTrim).filter (· ≠ "")
      match scanLines fix lines with
      | some q => (none, some q)
      | none => (none, none)

/-- Embedding of `parse_location` (src/hm/domain/parse_post.py lines
67-132): candidate lines are normalized and pass the small crossing fix
once. -/
def parse_location (text : String) : Option (ℚ × ℚ) × Option String :=
  parseLocationWith (fun ln => heuristic_fix_crossing (normalize_location_line ln))
    text

/-- Embedding of the monolith `parse_location` (src/bot.py lines 993-1078):
candidate lines pass the larger crossing fix and then the inline
missing-comma fix again. -/
def bot_parse_location (text : String) : Option (ℚ × ℚ) × Option String :=
  parseLocationWith
    (fun ln => heuristic_fix_crossing
      (heuristic_fix_crossing_bot (normalize_location_line ln)))
    text

/-- Digit values, for rewriting in concrete evaluations. -/
theorem digitVal0 : digitVal '0' = 0 := by decide

theorem digitVal1 : digitVal '1' = 1 := by decide

theorem digitVal2 : digitVal '2' = 2 := by decide

theorem digitVal3 : digitVal '3' = 3 := by decide

theorem digitVal4 : digitVal '4' = 4 := by decide

theorem digitVal5 : digitVal '5' = 5 := by decide

theorem digitVal6 : digitVal '6' = 6 := by decide

theorem digitVal7 : digitVal '7' = 7 := by decide

theorem digitVal8 : digitVal '8' = 8 := by decide

theorem digitVal9 : digitVal '9' = 9 := by decide


theorem digitVal_le_9 (c : Char) (h : isDig c = true) : digitVal c ≤ 9 := by
  simp only [isDig, Bool.decide_or, Bool.or_eq_true, decide_eq_true_eq] at h
  have h1 : c.toNat ≤ 57 := by
    have h2 := h.2
    simp only [Char.le_def] at h2
    exact h2
  simp only [digitVal]
  omega

theorem natOfDigits_lt (ds : List Char) (h : ∀ c ∈ ds, isDig c = true) :
    natOfDigits ds < 10 ^ ds.length := by
  induction ds with
  | nil => simp [natOfDigits]
  | cons c cs ih =>
    have hc : digitVal c ≤ 9 := digitVal_le_9 c (h c (by simp))
    have hcs : natOfDigits cs < 10 ^ cs.length := ih (fun x hx => h x (by simp [hx]))
    simp only [natOfDigits, List.length_cons, pow_succ]
    nlinarith

theorem fracOfDigits_nonneg (ds : List Char) : 0 ≤ fracOfDigits ds := by
  induction ds with
  | nil => simp [fracOfDigits]
  | cons c cs ih =>
    simp only [fracOfDigits]
    positivity

theorem fracOfDigits_lt_one (ds : List Char) (h : ∀ c ∈ ds, isDig c = true) :
    fracOfDigits ds < 1 := by
  induction ds with
  | nil => norm_num [fracOfDigits]
  | cons c cs ih =>
    have hc : digitVal c ≤ 9 := digitVal_le_9 c (h c (by simp))
    have hcs : fracOfDigits cs < 1 := ih (fun x hx => h x (by simp [hx]))
    have hcq : (digitVal c : ℚ) ≤ 9 := by exact_mod_cast hc
    simp only [fracOfDigits]
    linarith

theorem decValue_abs_lt (neg : Bool) (ip fp : List Char) (m : ℕ)
    (hlen : ip.length ≤ m) (hip : ∀ c ∈ ip, isDig c = true)
    (hfp : ∀ c ∈ fp, isDig c = true) :
    |decValue neg ip fp| < 10 ^ m := by
  have h1 : natOfDigits ip < 10 ^ ip.length := natOfDigits_lt ip hip
  have h2 : (10 : ℕ) ^ ip.length ≤ 10 ^ m := Nat.pow_le_pow_right (by norm_num) hlen
  have h3 : natOfDigits ip + 1 ≤ 10 ^ m := by omega
  have h4 : (natOfDigits ip : ℚ) + 1 ≤ (10 : ℚ) ^ m := by exact_mod_cast h3
  have h6 : fracOfDigits fp < 1 := fracOfDigits_lt_one fp hfp
  have h7 : 0 ≤ fracOfDigits fp := fracOfDigits_nonneg fp
  have h8 : 0 ≤ (natOfDigits ip : ℚ) := by positivity
  rcases neg with _ | _
  · simp only [decValue, Bool.false_eq_true, if_false]
    rw [abs_of_nonneg (by linarith)]
    linarith
  · simp only [decValue, if_true]
    rw [abs_neg, abs_of_nonneg (by linarith)]
    linarith

theorem parseSignedDec_wf (m : ℕ) (cs : List Char) (g : Bool × List Char × List Char)
    (r : List Char) (h : parseSignedDec m cs = some (g, r)) :
    g.2.1.length ≤ m ∧ (∀ c ∈ g.2.1, isDig c = true) ∧ (∀ c ∈ g.2.2, isDig c = true) := by
  obtain ⟨gn, gi, gf⟩ := g
  simp only [parseSignedDec] at h
  split_ifs at h with h1 h2
  split at h
  · split_ifs at h with h3
    simp only [Option.some.injEq, Prod.mk.injEq] at h
    obtain ⟨⟨rfl, rfl, rfl⟩, rfl⟩ := h
    dsimp only
    refine ⟨by omega, ?_, ?_⟩
    · intro c hc
      simpa using List.mem_takeWhile_imp hc
    · intro c hc
      simpa using List.mem_takeWhile_imp hc
  · exact absurd h (by simp)

theorem matchCoordsAt_wf (cs : List Char)
    (g : (Bool × List Char × List Char) × (Bool × List Char × List Char))
    (h : matchCoordsAt cs = some g) :
    (g.1.2.1.length ≤ 2 ∧ (∀ c ∈ g.1.2.1, isDig c = true)
      ∧ (∀ c ∈ g.1.2.2, isDig c = true))
    ∧ (g.2.2.1.length ≤ 3 ∧ (∀ c ∈ g.2.2.1, isDig c = true)
      ∧ (∀ c ∈ g.2.2.2, isDig c = true)) := by
  simp only [matchCoordsAt] at h
  rcases h1 : parseSignedDec 2 cs with _ | p1 <;> rw [h1] at h
  · exact absurd h (by simp)
  · obtain ⟨g1, r1⟩ := p1
    dsimp only at h
    split at h
    · split at h
      · exact absurd h (by simp)
      · rename_i r2 heq g2 r3 h2
        simp only [Option.some.injEq] at h
        subst h
        obtain ⟨w1a, w1b, w1c⟩ := parseSignedDec_wf 2 cs g1 r1 h1
        obtain ⟨w2a, w2b, w2c⟩ := parseSignedDec_wf 3 _ g2 r3 h2
        exact ⟨⟨w1a, w1b, w1c⟩, ⟨w2a, w2b, w2c⟩⟩
    · exact absurd h (by simp)

theorem reCoordsSearch_wf (cs : List Char)
    (g : (Bool × List Char × List Char) × (Bool × List Char × List Char))
    (h : reCoordsSearch cs = some g) :
    (g.1.2.1.length ≤ 2 ∧ (∀ c ∈ g.1.2.1, isDig c = true)
      ∧ (∀ c ∈ g.1.2.2, isDig c = true))
    ∧ (g.2.2.1.length ≤ 3 ∧ (∀ c ∈ g.2.2.1, isDig c = true)
      ∧ (∀ c ∈ g.2.2.2, isDig c = true)) := by
  induction cs with
  | nil => exact absurd h (by simp [reCoordsSearch])
  | cons c rest ih =>
    rw [reCoordsSearch] at h
    rcases hm : matchCoordsAt (c :: rest) with _ | v <;> rw [hm] at h
    · exact ih h
    · obtain rfl := Option.some_injective _ h
      exact matchCoordsAt_wf (c :: rest) v hm

theorem dmsAccum_spec (gs : List (List Char × List Char × (List Char × List Char) × Char)) :
    ∀ (lat lon : Option ℚ) (la lo : ℚ),
    dmsAccum lat lon gs = some (la, lo) →
      (lat = some la ∨ (-90 ≤ la ∧ la ≤ 90))
      ∧ (lon = some lo ∨ (-180 ≤ lo ∧ lo ≤ 180)) := by
  induction gs with
  | nil =>
    intro lat lon la lo h
    exact absurd h (by simp [dmsAccum])
  | cons gh gt ih =>
    obtain ⟨dg, mi, se, hemi⟩ := gh
    intro lat lon la lo h
    rw [dmsAccum] at h
    split at h
    · rename_i la' lo' heq1 heq2
      simp only [Option.some.injEq, Prod.mk.injEq] at h
      obtain ⟨rfl, rfl⟩ := h
      constructor
      · split_ifs at heq1 with hc1
        · obtain rfl := Option.some_injective _ heq1
          exact Or.inr ⟨hc1.2.2.1, hc1.2.2.2⟩
        · exact Or.inl heq1
      · split_ifs at heq2 with hc2
        · obtain rfl := Option.some_injective _ heq2
          exact Or.inr ⟨hc2.2.2.1, hc2.2.2.2⟩
        · exact Or.inl heq2
    · obtain ⟨hA, hB⟩ := ih _ _ la lo h
      constructor
      · rcases hA with hA | hA
        · split_ifs at hA with hc1
          · obtain rfl := Option.some_injective _ hA
            exact Or.inr ⟨hc1.2.2.1, hc1.2.2.2⟩
          · exact Or.inl hA
        · exact Or.inr hA
      · rcases hB with hB | hB
        · split_ifs at hB with hc2
          · obtain rfl := Option.some_injective _ hB
            exact Or.inr ⟨hc2.2.2.1, hc2.2.2.2⟩
          · exact Or.inl hB
        · exact Or.inr hB

/-- C7 (amended): every coordinate pair returned by `parse_location` has
latitude of absolute value below 100 and longitude below 1000; the decimal
branch enforces only these digit-count bounds (no [-90, 90] or [-180, 180]
validation), while the DMS branch is range-checked to [-90, 90] and
[-180, 180]. -/
theorem C7_parse_location_bounds (text : String) (la lo : ℚ) (q : Option String)
    (h : parse_location text = (some (la, lo), q)) :
    |la| < 100 ∧ |lo| < 1000 := by
  simp only [parse_location, parseLocationWith] at h
  rcases hd : coordsDms (htmlUnescape text.data) with _ | c <;> rw [hd] at h
  · rcases hr : reCoordsSearch (htmlUnescape text.data) with _ | g <;> rw [hr] at h
    · rcases hs : scanLines (fun ln => heuristic_fix_crossing (normalize_location_line ln))
          (((splitLines ⟨htmlUnescape text.data⟩).map pyTrim).filter (· ≠ "")) with _ | q' <;>
        rw [hs] at h <;> simp at h
    · obtain ⟨⟨w1a, w1b, w1c⟩, w2a, w2b, w2c⟩ := reCoordsSearch_wf _ g hr
      have h100 := decValue_abs_lt g.1.1 g.1.2.1 g.1.2.2 2 w1a w1b w1c
      have h1000 := decValue_abs_lt g.2.1 g.2.2.1 g.2.2.2 3 w2a w2b w2c
      simp only [coordsValue, Prod.mk.injEq, Option.some.injEq] at h
      obtain ⟨⟨rfl, rfl⟩, rfl⟩ := h
      norm_num at h100 h1000
      exact ⟨h100, h1000⟩
  · simp only [Prod.mk.injEq, Option.some.injEq] at h
    obtain ⟨hc, hq⟩ := h
    subst hc
    obtain ⟨hA, hB⟩ := dmsAccum_spec _ none none la lo hd
    rcases hA with hA | hA
    · exact absurd hA (by simp)
    · rcases hB with hB | hB
      · exact absurd hB (by simp)
      · constructor
        · have : |la| ≤ 90 := abs_le.mpr ⟨hA.1, hA.2⟩
          linarith
        · have : |lo| ≤ 180 := abs_le.mpr ⟨hB.1, hB.2⟩
          linarith

/-- C7 counterexample: `RE_COORDS` has no range validation, so the text
`99.5, 13.405` is returned as a coordinate pair although its latitude 99.5
(= 199/2) lies outside [-90, 90]. -/
theorem C7_counterexample :
    parse_location "#sticker_report\n99.5, 13.405\n#here"
      = (some (199 / 2, 2681 / 200), none)
    ∧ (90 : ℚ) < 199 / 2 := by
  have h0 : coordsDms (htmlUnescape "#sticker_report\n99.5, 13.405\n#here".data)
      = none := by decide
  have h1 : reCoordsSearch (htmlUnescape "#sticker_report\n99.5, 13.405\n#here".data)
      = some ((false, ['9', '9'], ['5']), (false, ['1', '3'], ['4', '0', '5'])) := by
    decide
  have h2 : decValue false ['9', '9'] ['5'] = 199 / 2 := by
    norm_num [decValue, natOfDigits, fracOfDigits, digitVal9, digitVal5]
  have h3 : decValue false ['1', '3'] ['4', '0', '5'] = 2681 / 200 := by
    norm_num [decValue, natOfDigits, fracOfDigits, digitVal1, digitVal3,
      digitVal4, digitVal0, digitVal5]
  refine ⟨?_, by norm_num⟩
  simp only [parse_location, parseLocationWith, h0, h1, coordsValue, h2, h3]

/-- Witness for C7: the bound instantiated on an ordinary in-range pair. -/
theorem C7_parse_location_bounds_witness :
    |(3 / 2 : ℚ)| < 100 ∧ |(5 / 2 : ℚ)| < 1000 :=
  C7_parse_location_bounds "1.5, 2.5" (3 / 2) (5 / 2) none (by
    have h0 : coordsDms (htmlUnescape "1.5, 2.5".data) = none := by decide
    have h1 : reCoordsSearch (htmlUnescape "1.5, 2.5".data)
        = some ((false, ['1'], ['5']), (false, ['2'], ['5'])) := by decide
    have h2 : decValue false ['1'] ['5'] = 3 / 2 := by
      norm_num [decValue, natOfDigits, fracOfDigits, digitVal1, digitVal5]
    have h3 : decValue false ['2'] ['5'] = 5 / 2 := by
      norm_num [decValue, natOfDigits, fracOfDigits, digitVal2, digitVal5]
    simp only [parse_location, parseLocationWith, h0, h1, coordsValue, h2, h3])

/-! ### Location-conflict handling (claim C6) -/

/-- Python `str.lstrip()`. -/
def pyLStrip (s : String) : String := ⟨s.data.dropWhile (isPySpace ·)⟩

/-- Character expansion of the umlaut replacements of `normalize_query`. -/
def replaceUml (c : Char) : List Char :=
  match c with
  | 'ß' => ['s', 's'] | 'ä' => ['a', 'e'] | 'ö' => ['o', 'e'] | 'ü' => ['u', 'e']
  | 'Ä' => ['A', 'e'] | 'Ö' => ['O', 'e'] | 'Ü' => ['U', 'e'] | c => [c]

/-- Embedding of `normalize_query` (src/bot.py lines 397-403): the chained
single-character replacements act independently, so one pass over the
characters is equivalent. -/
def normalize_query (q : String) : String := ⟨q.data.flatMap replaceUml⟩

/-- The candidate address/crossing lines of the conflict check
(src/bot.py lines 3280-3285): non-empty stripped lines that are not
hashtag lines and contain no decimal coordinate pair. -/
def conflictLines (text : String) : List String :=
  let ls := ((splitLines text).map pyTrim).filter (· ≠ "")
  let ls2 := ls.filter (fun ln => ¬listIsPfx "#".data (pyLStrip ln).data)
  ls2.filter (fun ln => reCoordsSearch ln.data = none)

/-- The conflict query: the remaining lines re-parsed by the monolith
`parse_location` (src/bot.py line 3286). -/
def conflictQuery (text : String) : Option String :=
  (bot_parse_location (joinSep "\n" (conflictLines text))).2

/-- Resolution of the conflict query (src/bot.py lines 3295-3303): cache
hit on `qn` first, then the geocoder on `qn`, then on its normalized
form. -/
def conflictResolve (cacheQ : String → Option (ℚ × ℚ))
    (geo : String → Option (ℚ × ℚ)) (qn qnNorm : String) : Option (ℚ × ℚ) :=
  match cacheQ qn with
  | some c => some c
  | none =>
    match geo qn with
    | some c => some c
    | none => geo qnNorm

/-- Outcome of the explicit-coordinates branch of the ingest: either the
report is routed to NEEDS_INFO with an error code, or it proceeds with
coordinates, geocode method and snap note. -/
inductive CoordsOutcome where
  | needsInfo (error : String)
  | accepted (lat lon : ℚ) (method : String)
deriving DecidableEq

/-- Embedding of the explicit-coordinates branch of the bot.py ingest
(src/bot.py lines 3266-3360): resolve a plausible address/crossing line
from the same text, route to NEEDS_INFO with error `location_conflict`
when it disagrees with the explicit coordinates by more than
`loc_conflict_m`, and otherwise continue with the (guard-snapped) explicit
coordinates. -/
def coords_branch (T : Trig) (env : SnapEnv) (cacheQ : String → Option (ℚ × ℚ))
    (geo : String → Option (ℚ × ℚ)) (cfg : Config) (text : String)
    (lat lon : ℚ) : CoordsOutcome :=
  let conflicted :=
    match conflictQuery text with
    | none => false
    | some qc =>
      if qc = "" then false
      else
        let qn := heuristic_fix_crossing_bot qc
        let qnNorm := normalize_query qn
        match conflictResolve cacheQ geo qn qnNorm with
        | none => false
        | some cq => decide (cfg.loc_conflict_m < haversine_m T lat lon cq.1 cq.2)
  if conflicted then CoordsOutcome.needsInfo "location_conflict"
  else
    let s := coords_branch_snap T env cfg lat lon
    CoordsOutcome.accepted s.1 s.2.1 s.2.2.1

/-- The ingest location step for a post whose text parses to explicit
coordinates (monolith `parse_location` plus the coordinates branch). -/
def handle_location (T : Trig) (env : SnapEnv) (cacheQ : String → Option (ℚ × ℚ))
    (geo : String → Option (ℚ × ℚ)) (cfg : Config) (text : String) :
    Option CoordsOutcome :=
  match bot_parse_location text with
  | (some c, _) => some (coords_branch T env cacheQ geo cfg text c.1 c.2)
  | _ => none

/-- C6: when a post text carries both explicit coordinates and a plausible
separate address/crossing line that resolves, the report is routed to
NEEDS_INFO with the distinct error `location_conflict` exactly when the
two locations disagree by more than the configured threshold; within the
threshold the explicit coordinates win — the outcome is determined by
them (via the guarded snap) and does not depend on the resolved address
location. -/
theorem C6_location_conflict (T : Trig) (env : SnapEnv)
    (cacheQ geo : String → Option (ℚ × ℚ)) (cfg : Config) (text : String)
    (la lo : ℚ) (qc : String) (cq : ℚ × ℚ)
    (hparse : bot_parse_location text = (some (la, lo), none))
    (hq : conflictQuery text = some qc) (hqc : qc ≠ "")
    (hres : conflictResolve cacheQ geo (heuristic_fix_crossing_bot qc)
      (normalize_query (heuristic_fix_crossing_bot qc)) = some cq) :
    (cfg.loc_conflict_m < haversine_m T la lo cq.1 cq.2 →
      handle_location T env cacheQ geo cfg text
        = some (CoordsOutcome.needsInfo "location_conflict"))
    ∧ (haversine_m T la lo cq.1 cq.2 ≤ cfg.loc_conflict_m →
      handle_location T env cacheQ geo cfg text
        = some (CoordsOutcome.accepted (coords_branch_snap T env cfg la lo).1
            (coords_branch_snap T env cfg la lo).2.1
            (coords_branch_snap T env cfg la lo).2.2.1)) := by
  constructor
  · intro hfar
    simp [handle_location, hparse, coords_branch, hq, hqc, hres, hfar]
  · intro hnear
    simp [handle_location, hparse, coords_branch, hq, hqc, hres, not_lt.mpr hnear]

/-- Post text of the C6 witness: explicit coordinates plus an address
line. -/
def textC6 : String := "52.5, 13.4\nHauptstrasse 5, Berlin"

/-- Empty snap environment (no POIs, ways or buildings anywhere). -/
def envEmptyC6 : SnapEnv := ⟨fun _ => none, fun _ _ => none, fun _ _ _ => none⟩

/-- Empty geocode cache for the C6 witness. -/
def cacheNoneC6 : String → Option (ℚ × ℚ) := fun _ => none

/-- Geocoder resolving the address far away (about 167 km north). -/
def geoFarC6 : String → Option (ℚ × ℚ) := fun s =>
  if s = "Hauptstrasse 5, Berlin" then some (54, 13) else none

/-- Geocoder resolving the address to exactly the explicit coordinates. -/
def geoNearC6 : String → Option (ℚ × ℚ) := fun s =>
  if s = "Hauptstrasse 5, Berlin" then some (105 / 2, 67 / 5) else none

/-- Witness for C6: with the far geocoder the report is routed to
NEEDS_INFO with error `location_conflict`; with the agreeing geocoder the
explicit coordinates win. -/
theorem C6_location_conflict_witness :
    handle_location saneTrig envEmptyC6 cacheNoneC6 geoFarC6 {} textC6
      = some (CoordsOutcome.needsInfo "location_conflict")
    ∧ handle_location saneTrig envEmptyC6 cacheNoneC6 geoNearC6 {} textC6
      = some (CoordsOutcome.accepted
          (coords_branch_snap saneTrig envEmptyC6 {} (105 / 2) (67 / 5)).1
          (coords_branch_snap saneTrig envEmptyC6 {} (105 / 2) (67 / 5)).2.1
          (coords_branch_snap saneTrig envEmptyC6 {} (105 / 2) (67 / 5)).2.2.1) := by
  have h0 : coordsDms (htmlUnescape textC6.data) = none := by decide
  have h1 : reCoordsSearch (htmlUnescape textC6.data)
      = some ((false, ['5', '2'], ['5']), (false, ['1', '3'], ['4'])) := by decide
  have h2 : decValue false ['5', '2'] ['5'] = 105 / 2 := by
    norm_num [decValue, natOfDigits, fracOfDigits, digitVal5, digitVal2]
  have h3 : decValue false ['1', '3'] ['4'] = 67 / 5 := by
    norm_num [decValue, natOfDigits, fracOfDigits, digitVal1, digitVal3, digitVal4]
  have hparse : bot_parse_location textC6 = (some (105 / 2, 67 / 5), none) := by
    simp only [bot_parse_location, parseLocationWith, h0, h1, coordsValue, h2, h3]
  have hq : conflictQuery textC6 = some "Hauptstrasse 5, Berlin" := by decide
  have hfix : heuristic_fix_crossing_bot "Hauptstrasse 5, Berlin"
      = "Hauptstrasse 5, Berlin" := by decide
  have hresFar : conflictResolve cacheNoneC6 geoFarC6
      (heuristic_fix_crossing_bot "Hauptstrasse 5, Berlin")
      (normalize_query (heuristic_fix_crossing_bot "Hauptstrasse 5, Berlin"))
      = some (54, 13) := by
    rw [hfix]
    rfl
  have hresNear : conflictResolve cacheNoneC6 geoNearC6
      (heuristic_fix_crossing_bot "Hauptstrasse 5, Berlin")
      (normalize_query (heuristic_fix_crossing_bot "Hauptstrasse 5, Berlin"))
      = some (105 / 2, 67 / 5) := by
    rw [hfix]
    rfl
  constructor
  · exact (C6_location_conflict saneTrig envEmptyC6 cacheNoneC6 geoFarC6 {} textC6
      (105 / 2) (67 / 5) "Hauptstrasse 5, Berlin" (54, 13) hparse hq (by decide)
      hresFar).1
      (by norm_num [haversine_m, saneTrig, pyRadians, Config.loc_conflict_m])
  · exact (C6_location_conflict saneTrig envEmptyC6 cacheNoneC6 geoNearC6 {} textC6
      (105 / 2) (67 / 5) "Hauptstrasse 5, Berlin" (105 / 2, 67 / 5) hparse hq
      (by decide) hresNear).2
      (by
        rw [haversine_m_self saneTrig saneTrig_sane]
        norm_num [Config.loc_conflict_m])
